import Mathlib

/-!
Verification of the asset-issuance subsystem of counterparty-lib
(counterpartylib/lib/messages/issuance.py), as a shallow embedding.

The embedding translates the source module function by function:
the wire codec of the Type 20 issuance message (the packing half of
compose, lines 378-409, and the decoding half of parse, lines 447-462),
the validate state machine (lines 130-326), and the parse message handler
with its ledger effects (lines 417-604).

Machine integers are Nat/Int; wire bytes are Nat values below 256.
Python floats appear in two places only: the call_price wire field, which
the embedding carries as its raw 32-bit big-endian word (the source turns
the word into an IEEE-754 single with struct.unpack and applies
round(x, 6); that conversion is below the granularity of this byte-level
model and is delegated to a context function), and the call_price value
inside validate, carried as Rat (validate only performs order comparisons
and sign tests on it, which agree with float semantics on the values the
claims exercise).

External collaborators that the module calls (util asset-name codec,
util.enabled feature gates, dispenser.is_opened, assetgroup) are not part
of the provided sources; they enter the model as explicit function fields
of a context record, so every theorem quantifies over their behaviour.
-/

namespace Issuance

/-- Value of config.MAX_INT: the 63-bit ledger ceiling, 2^63 - 1. -/
def MAX_INT : Int := 9223372036854775807

/-- Value of config.UNIT = 10^8. -/
def UNIT : Int := 100000000

/-- Constant LENGTH_1 = 8 + 8 + 1 (issuance.py line 18). -/
def LENGTH_1 : Nat := 17

/-- Constant LENGTH_2 = 8 + 8 + 1 + 1 + 4 + 4 (issuance.py line 20): the
size of the fixed part of the FORMAT_2 layout, which is 26 bytes. -/
def LENGTH_2 : Nat := 26

/-- Constant SUBASSET_FORMAT_LENGTH = 8 + 8 + 1 + 1 (issuance.py line 22). -/
def SUBASSET_FORMAT_LENGTH : Nat := 18

/-- Message-type id of a standard issuance (ID = 20, line 23). -/
def standardId : Nat := 20

/-- Message-type id of a sub-asset issuance (SUBASSET_ID = 21, line 24). -/
def subassetId : Nat := 21

/-! ## Big-endian byte strings (struct codes Q and I) -/

/-- The k big-endian base-256 digits of n: the packing side of the struct
codes Q (k = 8) and I (k = 4). -/
def beBytes : Nat → Nat → List Nat
  | 0, _ => []
  | k + 1, n => (n / 256 ^ k % 256) :: beBytes k n

/-- Big-endian value of a byte string: the unpacking side of Q and I. -/
def beToNat (bs : List Nat) : Nat :=
  bs.foldl (fun a b => a * 256 + b) 0

/-! ## Flags byte -/

/-- The flags byte as assembled by compose (issuance.py lines 388-393):
bit 0 set for divisible, bits 1 to 4 set for NOT listed, NOT reassignable,
NOT vendable, NOT fungible respectively. -/
def flagsEncode (divisible listed reassignable vendable fungible : Bool) : Nat :=
  (if divisible then 1 else 0) |||
  (if listed then 0 else 2) |||
  (if reassignable then 0 else 4) |||
  (if vendable then 0 else 8) |||
  (if fungible then 0 else 16)

/-- The flag booleans recovered by parse (issuance.py lines 453-457, and
identically at 430-434 and 467-471). -/
def flagsDecode (flags : Nat) : Bool × Bool × Bool × Bool × Bool :=
  (flags &&& 1 != 0, flags &&& 2 == 0, flags &&& 4 == 0,
   flags &&& 8 == 0, flags &&& 16 == 0)

/-! ## Type 20 wire codec -/

/-- Body of a Type 20 issuance message as built by compose (issuance.py
lines 383-394), without the message_type.pack(ID) prefix (the framework
strips the prefix before parse receives the message).  call_price_word is
the 32-bit big-endian word written for the struct f field (the IEEE-754
single bits of the float call_price); encoded_description is the UTF-8
encoding of the description.  A description of at most 42 bytes is written
as a Pascal string (struct code p with field width len + 1: one length
byte, then the bytes); a longer one is written raw (struct code s). -/
def compose20body (asset_id quantity : Nat)
    (divisible listed reassignable vendable fungible callable_ : Bool)
    (call_date : Nat) (call_price_word : Nat)
    (encoded_description : List Nat) : List Nat :=
  beBytes 8 asset_id ++ beBytes 8 quantity ++
  [flagsEncode divisible listed reassignable vendable fungible] ++
  [if callable_ then 1 else 0] ++
  beBytes 4 call_date ++ beBytes 4 call_price_word ++
  (if encoded_description.length ≤ 42 then
     encoded_description.length :: encoded_description
   else encoded_description)

/-- Result of unpacking a Type 20 long (FORMAT_2) message.  The flags byte
is kept as unpacked; parse derives the booleans with flagsDecode.
call_price_word is the raw 32-bit word of the f field, before the source
converts it to a float and rounds it to 6 decimals. -/
structure Unpacked20 where
  asset_id : Nat
  quantity : Nat
  flags : Nat
  callable_ : Bool
  call_date : Nat
  call_price_word : Nat
  description : List Nat
  deriving DecidableEq

/-- Unpacking of a Pascal-string field by struct code p: the first byte of
the field is a length, and that many following bytes are returned (the cap
at the field width minus one is realised by List.take stopping at the end
of the remainder, whose length is exactly the field width minus one). -/
def pascalBytes (tail : List Nat) : List Nat :=
  match tail with
  | [] => []
  | l :: rest => rest.take l

/-- The decoding half of parse for a Type 20 long message (issuance.py
lines 448-452).  Requires the 26-byte FORMAT_2 fixed part to be present
(parse only enters this branch when len(message) >= LENGTH_2); the
description tail is read as a Pascal string iff
len(message) - LENGTH_2 <= 42, and raw otherwise. -/
def unpack20 (message : List Nat) : Option Unpacked20 :=
  if message.length < LENGTH_2 then none
  else some {
    asset_id := beToNat (message.take 8)
    quantity := beToNat ((message.drop 8).take 8)
    flags := (message.drop 16).headD 0
    callable_ := (message.drop 17).headD 0 != 0
    call_date := beToNat ((message.drop 18).take 4)
    call_price_word := beToNat ((message.drop 22).take 4)
    description :=
      if message.length - LENGTH_2 ≤ 42 then pascalBytes (message.drop 26)
      else message.drop 26 }

/-! ## Python dynamic values -/

/-- A Python value as received by validate in the quantity, call_date and
call_price positions: None, an int, a float (carried as Rat, see the
module header) or a str.  Python bools are ints and do not occur at these
call sites. -/
inductive PyVal where
  | vnone
  | vint (n : Int)
  | vfloat (q : Rat)
  | vstr (s : String)
  deriving DecidableEq

/-- Python isinstance(x, int) on a PyVal. -/
def PyVal.isInt : PyVal → Bool
  | .vint _ => true
  | _ => false

/-- Python isinstance(x, float) on a PyVal. -/
def PyVal.isFloat : PyVal → Bool
  | .vfloat _ => true
  | _ => false

/-- Python truthiness of a PyVal. -/
def PyVal.truthy : PyVal → Bool
  | .vnone => false
  | .vint n => n != 0
  | .vfloat q => q != 0
  | .vstr s => s != ""

/-- The int-to-float widening at issuance.py line 146:
if isinstance(call_price, int) then call_price = float(call_price). -/
def PyVal.widen : PyVal → PyVal
  | .vint n => .vfloat n
  | v => v

/-- Numeric reading of a call_date value that survived the type check at
line 152: an int, or the falsy float 0.0 (which behaves as the integer 0
in every later operation of validate).  A str survivor (the empty string)
makes the comparison at line 170 raise TypeError in Python; the enclosing
Option of validate models that as none. -/
def PyVal.asIntValue : PyVal → Option Int
  | .vint n => some n
  | .vfloat q => if q = 0 then some 0 else none
  | _ => none

/-- Numeric reading of a call_price value that survived the type check at
line 155: after the widening every non-str value here is a float.  A str
survivor (the empty string) makes the comparison at line 169 raise
TypeError in Python; the enclosing Option of validate models that as
none. -/
def PyVal.asRatValue : PyVal → Option Rat
  | .vfloat q => some q
  | _ => none

/-- Python truthiness of an optional string (the tx destination field is
either absent or a string; the empty string is falsy). -/
def optStrTruthy : Option String → Bool
  | none => false
  | some s => s != ""

/-- Python substring containment, needle in haystack, on strings. -/
def pyIn (needle hay : String) : Bool :=
  decide (List.IsInfix needle.toList hay.toList)

/-- Python str.lower as the module uses it: the results are only ever
compared with the ASCII literal "lock", and on ASCII input the two agree
character by character.  (Python also folds a handful of non-ASCII
codepoints, such as the Kelvin sign, which no comparison here can
observe.) -/
def pyLower (s : String) : String := String.mk (s.data.map Char.toLower)

/-! ## Ledger model -/

/-- A row of the issuances table as read back by validate and parse.
The module only queries rows with status valid; such rows were written
with concrete (non-NULL) values in every column it reads, so the cells are
carried at their natural types (SQLite stores the BOOL columns as 0/1).
The list is kept in ascending tx_index order, which the append-only writes
of parse maintain, so the ORDER BY tx_index ASC of the queries is the list
order.  Columns the module never reads back (tx_hash, block_index, the
transfer flag, fee_paid, msg_index) are omitted. -/
structure IssuanceRow where
  tx_index : Nat
  asset : String
  quantity : Int
  divisible : Bool
  listed : Bool
  reassignable : Bool
  vendable : Bool
  fungible : Bool
  issuer : String
  callable_ : Bool
  call_date : Int
  call_price : Rat
  description : String
  locked : Bool
  status : String
  asset_longname : Option String
  deriving DecidableEq

/-- A row of the assets table (initialise, and the insert at parse lines
528-536). -/
structure AssetRow where
  asset_id : String
  asset_name : String
  block_index : Int
  asset_longname : Option String
  asset_group : Option String
  deriving DecidableEq

/-- A row of the balances table, maintained by the external util.debit and
util.credit collaborators. -/
structure BalanceRow where
  address : String
  asset : String
  quantity : Int
  deriving DecidableEq

/-- The ledger state visible to this module. -/
structure DB where
  issuances : List IssuanceRow
  assets : List AssetRow
  balances : List BalanceRow
  deriving DecidableEq

/-- The query SELECT * FROM issuances WHERE status = ? AND asset = ?
ORDER BY tx_index ASC with status valid (issuance.py lines 185-187,
238-240, 334-336, 546-548). -/
def validIssuancesOf (db : DB) (asset : String) : List IssuanceRow :=
  db.issuances.filter (fun r => r.status == "valid" && r.asset == asset)

/-- The query SELECT * FROM assets WHERE asset_longname = ? (lines
257-258). -/
def assetsByLongname (db : DB) (longname : String) : List AssetRow :=
  db.assets.filter (fun a => a.asset_longname == some longname)

/-- The query SELECT * FROM balances WHERE address = ? AND asset = ?
(lines 274-275). -/
def balancesOf (db : DB) (address asset : String) : List BalanceRow :=
  db.balances.filter (fun b => b.address == address && b.asset == asset)

/-- A database operation issued by validate, recorded in a trace so that
the read-only character of validation is a theorem rather than a
convention.  The two external constructors stand for the collaborator
calls dispenser.is_opened and assetgroup.validate, which are lookups per
their contracts in section 6 of the specification.  The two insert
constructors are the writes the ledger supports; validate never emits
them. -/
inductive DBOp where
  | selectIssuances (status : String) (asset : Option String)
  | selectAssetsByLongname (longname : String)
  | selectBalances (address asset : String)
  | externalDispenserIsOpened (asset : String)
  | externalAssetgroupValidate (longname source : String)
  | insertIssuanceOp (row : IssuanceRow)
  | insertAssetOp (row : AssetRow)
  deriving DecidableEq

/-- Whether a database operation is a read. -/
def DBOp.isRead : DBOp → Bool
  | .insertIssuanceOp _ => false
  | .insertAssetOp _ => false
  | _ => true

/-- Effect of a database operation on the ledger state: reads leave it
unchanged, inserts append. -/
def applyOp (db : DB) : DBOp → DB
  | .insertIssuanceOp r => { db with issuances := db.issuances ++ [r] }
  | .insertAssetOp r => { db with assets := db.assets ++ [r] }
  | _ => db

/-! ## Configuration and external collaborators -/

/-- Process-wide configuration and the external collaborators the module
calls.  enabled models util.enabled at the block being processed: the
module calls util.enabled both with and without an explicit block_index,
and during parse both forms look up the same height because
util.CURRENT_BLOCK_INDEX is the block being parsed.  generateAssetName
returns none when util.generate_asset_name raises AssetIDError.
decodeCallPrice maps the 32-bit word of the wire f field to the value
round(struct.unpack('>f', word)[0], 6) used by parse; it is a context
field because IEEE-754 conversion is outside this byte-level model.
utf8Decode returns none exactly when bytes.decode('utf-8') raises
UnicodeDecodeError, and utf8DecodeReplace models decoding with
errors='replace'. -/
structure Ctx where
  TESTNET : Bool
  REGTEST : Bool
  BTC : String
  XCP : String
  enabled : String → Bool
  dispenserIsOpened : DB → String → Bool
  assetgroupValidate : DB → String → String → List String
  generateAssetName : Nat → Option String
  expandSubassetLongname : List Nat → String
  validateSubassetLongname : String → Bool
  validateSubassetLongnameGroup : String → Bool
  parseSubassetFromAssetName : String → String × Option String
  decodeCallPrice : Nat → Rat
  utf8Decode : List Nat → Option String
  utf8DecodeReplace : List Nat → String

/-! ## validate (issuance.py lines 130-326) -/

/-- The tuple returned by validate (line 326, and the early returns at
lines 151-157).  reissuance and reissued_asset_longname are None on the
early returns; on the main path reissuance is a bool and
reissued_asset_longname the (possibly NULL) asset_longname of the last
valid issuance. -/
structure VOut where
  call_date : PyVal
  call_price : PyVal
  problems : List String
  fee : Int
  description : String
  divisible : Bool
  listed : Bool
  reassignable : Bool
  vendable : Bool
  fungible : Bool
  reissuance : Option Bool
  reissued_asset_longname : Option String
  deriving DecidableEq

/-- The early-return tuple of the type checks (lines 151, 154, 157):
fee 0, reissuance None, reissued longname None. -/
def earlyVOut (call_date call_price : PyVal) (problems : List String)
    (description : String)
    (divisible listed reassignable vendable fungible : Bool) : VOut :=
  { call_date := call_date, call_price := call_price, problems := problems,
    fee := 0, description := description, divisible := divisible,
    listed := listed, reassignable := reassignable, vendable := vendable,
    fungible := fungible, reissuance := none,
    reissued_asset_longname := none }

/-- Reserved-name problem (lines 134-135). -/
def vpReserved (ctx : Ctx) (asset : String) : List String :=
  if asset = ctx.BTC ∨ asset = ctx.XCP then
    ["cannot issue " ++ ctx.BTC ++ " or " ++ ctx.XCP]
  else []

/-- Fungibility-gate problems (lines 159-166). -/
def vpFungible (ctx : Ctx) (fungible divisible : Bool) (qi : Int) : List String :=
  if ctx.enabled "non_fungible_assets" then
    if ¬fungible then
      if divisible then ["Cannot create the asset with non-fungible and divisible"]
      else if qi ≠ 1 then ["non-fungible asset can issue only 1 asset"]
      else []
    else []
  else if ¬fungible then ["non-fungible assets not enabled"]
  else []

/-- Sign-check problems (lines 168-170). -/
def vpSign (qi : Int) (cp : Rat) (cd : Int) : List String :=
  (if qi < 0 then ["negative quantity"] else []) ++
  (if cp < 0 then ["negative call price"] else []) ++
  (if cd < 0 then ["negative call date"] else [])

/-- Callability normalisation (lines 172-181): returns the possibly
zeroed call_date and call_price and the problems of the 310000-312500
window. -/
def callability (ctx : Ctx) (callable_ : Bool) (block_index : Int)
    (cd : Int) (cp : Rat) : Int × Rat × List String :=
  if ¬callable_ then
    if block_index ≥ 312500 ∨ ctx.TESTNET ∨ ctx.REGTEST then (0, 0, [])
    else if block_index ≥ 310000 then
      (cd, cp,
       (if cd ≠ 0 then ["call date for non‐callable asset"] else []) ++
       (if cp ≠ 0 then ["call price for non‐callable asset"] else []))
    else (cd, cp, [])
  else (cd, cp, [])

/-- The issuance_locked flag (lines 195-203): with issuance_lock_fix every
prior valid issuance is consulted, without it only the most recent. -/
def lockedFlag (ctx : Ctx) (issuances : List IssuanceRow)
    (last : IssuanceRow) : Bool :=
  if ctx.enabled "issuance_lock_fix" then issuances.any (fun i => i.locked)
  else last.locked

/-- Reissuance problems (lines 205-226).  The one raw-cell comparison of
the source, last_issuance.vendable == False without a bool() cast, is the
equation last.vendable = false on the modelled 0/1 cells. -/
def vpReissue (ctx : Ctx) (db : DB) (source asset : String)
    (divisible listed reassignable vendable : Bool) (callable_ : Bool)
    (cd1 : Int) (cp1 : Rat) (qi : Int) (block_index : Int)
    (last : IssuanceRow) (locked_flag : Bool) : List String :=
  (if last.issuer ≠ source then ["issued by another address"] else []) ++
  (if last.divisible ≠ divisible then ["cannot change divisibility"] else []) ++
  (if last.listed ≠ listed then ["cannot change listing flag"] else []) ++
  (if last.reassignable ≠ reassignable then ["cannot change reassignable flag"] else []) ++
  (if last.vendable ≠ vendable then
     (if last.vendable = false ∨ ctx.enabled "enable_vendable_fix" then
        ["Cannot change vendable flag"]
      else if ctx.dispenserIsOpened db asset then
        ["Cannot change vendable flag because the asset is dispending"]
      else [])
   else []) ++
  (if last.callable_ ≠ callable_ then ["cannot change callability"] else []) ++
  (if last.call_date > cd1 ∧ (cd1 ≠ 0 ∨ (block_index < 312500 ∧ (¬ctx.TESTNET ∨ ¬ctx.REGTEST))) then
     ["cannot advance call date"] else []) ++
  (if last.call_price > cp1 then ["cannot reduce call price"] else []) ++
  (if locked_flag ∧ qi ≠ 0 then ["locked asset and non‐zero quantity"] else [])

/-- First-issuance problems (lines 228-232). -/
def vpFirst (description : String) (fungible : Bool)
    (destination : Option String) : List String :=
  (if pyLower description = "lock" ∧ fungible then
     ["cannot lock a non‐existent asset"] else []) ++
  (if optStrTruthy destination then
     ["cannot transfer a non‐existent asset"] else [])

/-- Sub-asset parent ownership problems and the queries they run (lines
234-251).  When subasset_parent is None the parent query matches no rows,
as an SQL equality with NULL does. -/
def vpParent (ctx : Ctx) (db : DB) (source : String) (fungible : Bool)
    (subasset_parent subasset_longname : Option String) :
    List String × List DBOp :=
  match subasset_longname with
  | none => ([], [])
  | some l =>
    if fungible then
      let parent_issuances :=
        match subasset_parent with
        | some p => validIssuancesOf db p
        | none => []
      (match parent_issuances.getLast? with
       | some lastParent =>
           if lastParent.issuer ≠ source then ["parent asset owned by another address"] else []
       | none => ["parent asset not found"],
       [DBOp.selectIssuances "valid" subasset_parent])
    else
      (ctx.assetgroupValidate db l source,
       [DBOp.externalAssetgroupValidate l source])

/-- Sub-asset duplication and numeric-parent problems (lines 253-267).
The source indexes asset[0]; generate_asset_name never yields an empty
name, and on an empty name the model reports the numeric-parent problem
where Python would raise IndexError. -/
def vpDup (db : DB) (asset : String) (fungible : Bool)
    (subasset_longname : Option String) (reissuance : Bool) :
    List String × List DBOp :=
  match subasset_longname with
  | none => ([], [])
  | some l =>
    if reissuance then ([], [])
    else
      let (p1, ops1) :=
        if fungible then
          ((if (assetsByLongname db l).length > 0 then ["subasset already exists"] else []),
           [DBOp.selectAssetsByLongname l])
        else ([], [])
      (p1 ++ (if asset.toList.head? ≠ some 'A' then
                ["parent asset must be a numeric asset"] else []),
       ops1)

/-- The fee schedule of lines 278-298, reached once the fee gates of
lines 271-272 have passed.  The literals are the values of the Python
expressions: int(0.25 * UNIT) = 25000000, int(0.0025 * UNIT) = 250000
(float truncation), int(0.5 * UNIT) = 50000000, 5 * UNIT = 500000000.
The fee_revision_2021_1q multiplication at lines 291-292 sits inside the
numeric_asset_names branch. -/
def computeFee (ctx : Ctx) (block_index : Int) (asset : String)
    (subasset_longname : Option String) (fungible : Bool) : Int :=
  if ctx.enabled "numeric_asset_names" then
    let fee : Int :=
      if subasset_longname.isSome then
        if ctx.enabled "subassets" ∧ fungible then 25000000
        else if ctx.enabled "non_fungible_assets" ∧ ¬fungible then 250000
        else 250000
      else if 13 ≤ asset.length then 0
      else 50000000
    if ctx.enabled "fee_revision_2021_1q" then fee * 100 else fee
  else if block_index ≥ 291700 ∨ ctx.TESTNET ∨ ctx.REGTEST then 50000000
  else if block_index ≥ 286000 ∨ ctx.TESTNET ∨ ctx.REGTEST then 5 * UNIT
  else if block_index > 281236 ∨ ctx.TESTNET ∨ ctx.REGTEST then 5
  else 0

/-- The insufficient-funds test of line 299: fee truthy, and either no
balances row or its quantity below the fee. -/
def insufficientFunds (balances : List BalanceRow) (fee : Int) : Bool :=
  decide (fee ≠ 0) &&
    (match balances.head? with
     | none => true
     | some b => decide (b.quantity < fee))

/-- The fee block of lines 270-300: the gates, the balance query, the
schedule and the insufficient-funds problem.  Returns fee, problems and
the queries run. -/
def feeSection (ctx : Ctx) (db : DB) (source asset : String)
    (subasset_longname : Option String) (fungible : Bool)
    (reissuance : Bool) (qi : Int) (block_index : Int) :
    Int × List String × List DBOp :=
  if (qi ≠ 0 ∨ block_index ≥ 315000 ∨ ctx.TESTNET ∨ ctx.REGTEST) ∧
     (¬reissuance ∨ (block_index < 310000 ∧ ¬ctx.TESTNET ∧ ¬ctx.REGTEST)) then
    let balances := balancesOf db source ctx.XCP
    let fee := computeFee ctx block_index asset subasset_longname fungible
    (fee,
     (if insufficientFunds balances fee then ["insufficient funds"] else []),
     [DBOp.selectBalances source ctx.XCP])
  else (0, [], [])

/-- Description-length problem (lines 302-304); Python len of a str
counts code points. -/
def vpDescLen (ctx : Ctx) (block_index : Int) (description : String) : List String :=
  if ¬(block_index ≥ 317500 ∨ ctx.TESTNET ∨ ctx.REGTEST) ∧ 42 < description.length then
    ["description too long"]
  else []

/-- Delisted-assets gate problem (lines 306-307). -/
def vpListed (ctx : Ctx) (listed : Bool) : List String :=
  if ¬listed ∧ ¬ctx.enabled "delisted_assets" then
    ["invalid: delisted assets not supported yet."]
  else []

/-- Non-reassignable gate problem (lines 309-310). -/
def vpReassignable (ctx : Ctx) (reassignable : Bool) : List String :=
  if ¬reassignable ∧ ¬ctx.enabled "non_reassignable_assets" then
    ["invalid: non-reassignable assets not supported yet."]
  else []

/-- Total-quantity overflow problem (lines 314-317). -/
def vpTotal (total qi : Int) : List String :=
  if total + qi > MAX_INT then ["total quantity overflow"] else []

/-- Simultaneous transfer-and-mint problem (lines 319-320). -/
def vpTransfer (destination : Option String) (qi : Int) : List String :=
  if optStrTruthy destination ∧ qi ≠ 0 then
    ["cannot issue and transfer simultaneously"]
  else []

/-- Integer-overflow problem (lines 322-324). -/
def vpIntOverflow (ctx : Ctx) (fee qi : Int) : List String :=
  if ctx.enabled "integer_overflow_fix" ∧ (fee > MAX_INT ∨ qi > MAX_INT) then
    ["integer overflow"]
  else []

/-- The body of validate from line 159 on, once the inputs are known to be
well typed: qi the int quantity, cd the int call_date, cp the float
call_price.  problems0 is the reserved-name problem list collected at
line 134.  The problems are concatenated in source order; the trace lists
the queries in execution order. -/
def validateMain (ctx : Ctx) (db : DB) (source : String)
    (destination : Option String) (asset : String) (qi : Int)
    (divisible listed reassignable vendable fungible : Bool)
    (callable_ : Bool) (cd : Int) (cp : Rat) (description : String)
    (subasset_parent subasset_longname : Option String)
    (block_index : Int) (problems0 : List String) : VOut × List DBOp :=
  let cdcp := callability ctx callable_ block_index cd cp
  let cd1 := cdcp.1
  let cp1 := cdcp.2.1
  let pCall := cdcp.2.2
  let issuances := validIssuancesOf db asset
  let reissuance := !issuances.isEmpty
  let reData : Option String × List String × List DBOp :=
    match issuances.getLast? with
    | some last =>
        (last.asset_longname,
         vpReissue ctx db source asset divisible listed reassignable vendable
           callable_ cd1 cp1 qi block_index last (lockedFlag ctx issuances last),
         if last.vendable ≠ vendable ∧
            ¬(last.vendable = false ∨ ctx.enabled "enable_vendable_fix") then
           [DBOp.externalDispenserIsOpened asset]
         else [])
    | none =>
        (none, vpFirst description fungible destination, [])
  let reissued := reData.1
  let pRe := reData.2.1
  let reOps := reData.2.2
  let parData := vpParent ctx db source fungible subasset_parent subasset_longname
  let dupData := vpDup db asset fungible subasset_longname reissuance
  let feeData := feeSection ctx db source asset subasset_longname fungible
    reissuance qi block_index
  let fee := feeData.1
  let cd2 := min cd1 MAX_INT
  let total := (issuances.map (fun i => i.quantity)).sum
  let problems :=
    problems0 ++ vpFungible ctx fungible divisible qi ++ vpSign qi cp cd ++
    pCall ++ pRe ++ parData.1 ++ dupData.1 ++ feeData.2.1 ++
    vpDescLen ctx block_index description ++ vpListed ctx listed ++
    vpReassignable ctx reassignable ++ vpTotal total qi ++
    vpTransfer destination qi ++ vpIntOverflow ctx fee qi
  ({ call_date := .vint cd2, call_price := .vfloat cp1, problems := problems,
     fee := fee, description := description, divisible := divisible,
     listed := listed, reassignable := reassignable, vendable := vendable,
     fungible := fungible, reissuance := some reissuance,
     reissued_asset_longname := reissued },
   [DBOp.selectIssuances "valid" (some asset)] ++ reOps ++ parData.2 ++
     dupData.2 ++ feeData.2.2)

/-- The three type checks of issuance.py lines 149-157, applied to the
already None-defaulted call_date and the widened call_price: the first
failing check names the problem appended by its early return. -/
def typeCheckProblem (quantity call_date1 call_price1 : PyVal) : Option String :=
  if ¬quantity.isInt then some "quantity must be in satoshis"
  else if call_date1.truthy ∧ ¬call_date1.isInt then some "call_date must be epoch integer"
  else if call_price1.truthy ∧ ¬call_price1.isFloat then some "call_price must be a float"
  else none

/-- The validate function (issuance.py lines 130-326).  The first
component is none exactly when Python raises an uncaught TypeError (a
falsy str slipping past the type checks and reaching a numeric
comparison); the second is the trace of ledger operations run.  The
None-default resolution of lines 137-144, the widening of line 146 and
the type checks of lines 149-157 precede the typed main body. -/
def validate (ctx : Ctx) (db : DB) (source : String)
    (destination : Option String) (asset : String) (quantity : PyVal)
    (divisible listed reassignable vendable fungible : Option Bool)
    (callable_ : Bool) (call_date call_price : PyVal)
    (description : Option String)
    (subasset_parent subasset_longname : Option String)
    (block_index : Int) : Option VOut × List DBOp :=
  let problems0 := vpReserved ctx asset
  let call_date1 := if call_date = .vnone then .vint 0 else call_date
  let call_price1 := (if call_price = .vnone then .vfloat 0 else call_price).widen
  let description1 := description.getD ""
  let divisible1 := divisible.getD true
  let listed1 := listed.getD true
  let reassignable1 := reassignable.getD true
  let vendable1 := vendable.getD true
  let fungible1 := fungible.getD true
  match typeCheckProblem quantity call_date1 call_price1 with
  | some msg =>
    (some (earlyVOut call_date1 call_price1 (problems0 ++ [msg])
       description1 divisible1 listed1 reassignable1 vendable1 fungible1), [])
  | none =>
    match quantity, call_date1.asIntValue, call_price1.asRatValue with
    | .vint qi, some cd, some cp =>
        let r := validateMain ctx db source destination asset qi
          divisible1 listed1 reassignable1 vendable1 fungible1 callable_
          cd cp description1 subasset_parent subasset_longname block_index
          problems0
        (some r.1, r.2)
    | _, _, _ => (none, [])

/-- The section 4.2 fee schedule, stated from the specification's own
words for the refinement comparison of claim C2, with the one amendment
the code forces: the fee_revision_2021_1q multiplication by 100 applies
inside the numeric_asset_names era only.  Rows, in the specification's
order: fungible sub-asset with subassets on, 0.25 x UNIT; other sub-asset
rows, 0.0025 x UNIT; asset names of length at least 13, 0; otherwise
under numeric_asset_names, 0.5 x UNIT; else 0.5 x UNIT from block 291700,
5 x UNIT from block 286000, 5 above block 281236.  Mainnet table (the
TESTNET and REGTEST short-circuits of the code are handled by the mainnet
hypothesis of the theorem). -/
def feeScheduleSpec (enabled : String → Bool) (block_index : Int)
    (asset : String) (isSubasset fungible : Bool) : Int :=
  if enabled "numeric_asset_names" then
    (if isSubasset then
       (if enabled "subassets" ∧ fungible then 25000000 else 250000)
     else if 13 ≤ asset.length then 0
     else 50000000) *
    (if enabled "fee_revision_2021_1q" then 100 else 1)
  else if block_index ≥ 291700 then 50000000
  else if block_index ≥ 286000 then 500000000
  else if block_index > 281236 then 5
  else 0

/-! ## parse (issuance.py lines 417-604) -/

/-- Host-transaction context handed to parse. -/
structure Tx where
  tx_index : Nat
  tx_hash : String
  block_index : Int
  source : String
  destination : Option String
  deriving DecidableEq

/-- Outcome of the unpack block (lines 420-472): an uncaught exception
(struct.error on a short Type 21 message, which the except clause at line
479 does not catch), an exceptions.UnpackError, or the decoded fields. -/
inductive DecodeOut where
  | crash
  | unpackFail
  | ok (asset_id : Nat) (quantity : Int)
      (divisible listed reassignable vendable fungible : Bool)
      (callable_ : Bool) (call_date : Int) (call_price : Rat)
      (description : String) (subasset_longname : Option String)
  deriving DecidableEq

/-- The UTF-8 description decoding with its gate (lines 443-446 and
459-462). -/
def decodeDescription (ctx : Ctx) (bytes : List Nat) : String :=
  match ctx.utf8Decode bytes with
  | some s => s
  | none => if ctx.enabled "utf-8_codec_fixes" then ctx.utf8DecodeReplace bytes else ""

/-- The unpack block of parse (lines 420-472): Type 21 when the
message-type id says so, FORMAT_2 when the block height and length allow,
FORMAT_1 otherwise. -/
def decodeMessage (ctx : Ctx) (block_index : Int) (message : List Nat)
    (message_type_id : Nat) : DecodeOut :=
  if message_type_id = subassetId then
    if ¬ctx.enabled "subassets" then .unpackFail
    else if message.length < SUBASSET_FORMAT_LENGTH then .crash
    else
      let asset_id := beToNat (message.take 8)
      let quantity : Int := beToNat ((message.drop 8).take 8)
      let flags := (message.drop 16).headD 0
      let csl := (message.drop 17).headD 0
      if message.length < SUBASSET_FORMAT_LENGTH + csl then .unpackFail
      else
        let compacted := (message.drop 18).take csl
        let descBytes := message.drop (18 + csl)
        let f := flagsDecode flags
        .ok asset_id quantity f.1 f.2.1 f.2.2.1 f.2.2.2.1 f.2.2.2.2 false 0 0
          (decodeDescription ctx descBytes)
          (some (ctx.expandSubassetLongname compacted))
  else if (block_index > 283271 ∨ ctx.TESTNET ∨ ctx.REGTEST) ∧ LENGTH_2 ≤ message.length then
    match unpack20 message with
    | none => .crash
    | some u =>
        let f := flagsDecode u.flags
        .ok u.asset_id u.quantity f.1 f.2.1 f.2.2.1 f.2.2.2.1 f.2.2.2.2
          u.callable_ u.call_date (ctx.decodeCallPrice u.call_price_word)
          (decodeDescription ctx u.description) none
  else
    if message.length ≠ LENGTH_1 then .unpackFail
    else
      .ok (beToNat (message.take 8)) (beToNat ((message.drop 8).take 8))
        ((message.drop 16).headD 0 ≠ 0) true true true true false 0 0 "" none

/-- The local state of parse after decode, asset-name resolution,
sub-asset validation and validation (through line 509), right before the
transfer override and the ledger effects. -/
structure Mid where
  status : String
  asset_id : Option Nat
  asset : Option String
  quantity : PyVal
  divisible : Option Bool
  listed : Option Bool
  reassignable : Option Bool
  vendable : Option Bool
  fungible : Option Bool
  callable_ : Option Bool
  call_date : PyVal
  call_price : PyVal
  description : Option String
  subasset_longname : Option String
  fee : Int
  reissuance : Option Bool
  reissued_asset_longname : Option String
  deriving DecidableEq

/-- The Mid state of the could-not-unpack path (lines 479-481): every
payload field None, fee 0. -/
def midUnpackFail : Mid :=
  { status := "invalid: could not unpack", asset_id := none, asset := none,
    quantity := .vnone, divisible := none, listed := none,
    reassignable := none, vendable := none, fungible := none,
    callable_ := none, call_date := .vnone, call_price := .vnone,
    description := none, subasset_longname := none, fee := 0,
    reissuance := none, reissued_asset_longname := none }

/-- The validation step of parse (lines 502-509), entered when decoding
and name resolution succeeded: run validate, stringify the problems into
the status, and zero the quantity on a total-quantity overflow when
integer_overflow_fix is off.  none models a crash inside validate. -/
def parseValidStep (ctx : Ctx) (db : DB) (tx : Tx) (asset_id : Nat)
    (qn : Int) (d l r v f : Bool) (cb : Bool) (cd : Int) (cp : Rat)
    (desc : String) (subasset_parent subl2 : Option String)
    (a : String) : Option Mid :=
  match (validate ctx db tx.source tx.destination a (.vint qn)
      (some d) (some l) (some r) (some v) (some f) cb
      (.vint cd) (.vfloat cp) (some desc) subasset_parent subl2
      tx.block_index).1 with
  | none => none
  | some vout =>
    let status3 :=
      if vout.problems = [] then "valid"
      else "invalid: " ++ String.intercalate "; " vout.problems
    let qn2 : Int :=
      if ¬ctx.enabled "integer_overflow_fix" ∧
         "total quantity overflow" ∈ vout.problems then 0 else qn
    some { status := status3, asset_id := some asset_id,
           asset := some a, quantity := .vint qn2,
           divisible := some vout.divisible,
           listed := some vout.listed,
           reassignable := some vout.reassignable,
           vendable := some vout.vendable,
           fungible := some vout.fungible, callable_ := some cb,
           call_date := vout.call_date,
           call_price := vout.call_price,
           description := some vout.description,
           subasset_longname := subl2, fee := vout.fee,
           reissuance := vout.reissuance,
           reissued_asset_longname := vout.reissued_asset_longname }

/-- parse through line 509: decode, asset-name resolution (473-478),
sub-asset longname validation (483-500), validation and status/quantity
rewriting (502-509).  none models an uncaught exception. -/
def parseStage1 (ctx : Ctx) (db : DB) (tx : Tx) (message : List Nat)
    (message_type_id : Nat) : Option Mid :=
  match decodeMessage ctx tx.block_index message message_type_id with
  | .crash => none
  | .unpackFail => some midUnpackFail
  | .ok asset_id qn d l r v f cb cd cp desc subl0 =>
    let a1 : Option String × String :=
      match ctx.generateAssetName asset_id with
      | some a => (some a, "valid")
      | none => (none, "invalid: bad asset name")
    let s2 : Option String × String × Option String × Option String :=
      if a1.2 = "valid" then
        match subl0 with
        | some lname =>
          if f then
            if ctx.validateSubassetLongname lname then
              let pr := ctx.parseSubassetFromAssetName lname
              (a1.1, a1.2, some pr.1, pr.2)
            else (none, "invalid: bad subasset name", none, some lname)
          else
            if ctx.validateSubassetLongnameGroup lname then
              (a1.1, a1.2, a1.1, some lname)
            else (none, "invalid: bad assetgroup name", a1.1, some lname)
        | none => (a1.1, a1.2, none, none)
      else (a1.1, a1.2, none, subl0)
    let asset2 := s2.1
    let status2 := s2.2.1
    let subasset_parent := s2.2.2.1
    let subl2 := s2.2.2.2
    if status2 = "valid" then
      match asset2 with
      | none => none
      | some a =>
        parseValidStep ctx db tx asset_id qn d l r v f cb cd cp desc
          subasset_parent subl2 a
    else
      some { status := status2, asset_id := some asset_id, asset := asset2,
             quantity := .vint qn, divisible := some d, listed := some l,
             reassignable := some r, vendable := some v,
             fungible := some f, callable_ := some cb,
             call_date := .vint cd, call_price := .vfloat cp,
             description := some desc, subasset_longname := subl2,
             fee := 0, reissuance := none,
             reissued_asset_longname := none }

/-- A row of the issuances insert at lines 560-585 (the bindings dict, in
column order of the insert statement).  Decode-failure rows carry None in
the payload columns. -/
structure InsRow where
  tx_index : Nat
  tx_hash : String
  block_index : Int
  asset : Option String
  quantity : PyVal
  divisible : Option Bool
  vendable : Option Bool
  listed : Option Bool
  reassignable : Option Bool
  fungible : Option Bool
  source : String
  issuer : String
  transfer : Bool
  callable_ : Option Bool
  call_date : PyVal
  call_price : PyVal
  description : Option String
  fee_paid : Int
  locked : Bool
  status : String
  asset_longname : Option String
  deriving DecidableEq

/-- A ledger effect of parse: the util.debit call of line 521, the assets
insert of lines 528-536, the issuances insert of lines 584-585, the
assetgroup.create call of lines 590-597 and the util.credit call of lines
600-601. -/
inductive Effect where
  | debit (address asset : String) (quantity : Int)
  | credit (address asset : String) (quantity : Int)
  | insertAssetRow (row : AssetRow)
  | insertIssuanceRow (row : InsRow)
  | assetgroupCreate (asset_longname : Option String) (issuer : String) (status : String)
  deriving DecidableEq

/-- What parse returns to the verifier: the final status and the ledger
effects in execution order. -/
structure ParseResult where
  status : String
  effects : List Effect
  deriving DecidableEq

/-- The integer value of a PyVal known to be an int (the credit amount at
line 601). -/
def PyVal.intOr0 : PyVal → Int
  | .vint n => n
  | _ => 0

/-- parse from line 511 to the end: the transfer override (511-517), the
debit (519-521), the lock flag, magic-lock description replacement and
assets insert (523-551), the row longname choice (553-557), the issuances
insert with the integer-overflow escape hatch (559-588), the
assetgroup.create call (590-597) and the credit (599-601).  none models
the AssertionError of line 541 and the IndexError a magic-lock reissuance
with no prior valid issuance would raise at line 550. -/
def effectStage (ctx : Ctx) (db : DB) (tx : Tx) (mid : Mid) : Option ParseResult :=
  let t₀ :=
    if optStrTruthy tx.destination then (tx.destination.getD "", true, PyVal.vint 0)
    else (tx.source, false, mid.quantity)
  let issuer := t₀.1
  let transfer := t₀.2.1
  let quantity := t₀.2.2
  let isValid := mid.status = "valid"
  let descLock : Bool :=
    match mid.description with
    | some s => decide (s ≠ "" ∧ pyLower s = "lock")
    | none => false
  if isValid ∧ mid.reissuance = some false ∧ descLock then none
  else
    let lockDesc : Option (Bool × Option String) :=
      if isValid ∧ mid.reissuance = some false then
        some (mid.fungible ≠ some true, mid.description)
      else if isValid ∧ descLock then
        match (validIssuancesOf db (mid.asset.getD "")).getLast? with
        | some lastI => some (true, some lastI.description)
        | none => none
      else some (false, mid.description)
    match lockDesc with
    | none => none
    | some ld =>
      let lock := ld.1
      let description2 := ld.2
      let asset_longname :=
        if isValid ∧ mid.reissuance = some true then mid.reissued_asset_longname
        else mid.subasset_longname
      let row : InsRow :=
        { tx_index := tx.tx_index, tx_hash := tx.tx_hash,
          block_index := tx.block_index, asset := mid.asset,
          quantity := quantity, divisible := mid.divisible,
          vendable := mid.vendable, listed := mid.listed,
          reassignable := mid.reassignable, fungible := mid.fungible,
          source := tx.source, issuer := issuer, transfer := transfer,
          callable_ := mid.callable_, call_date := mid.call_date,
          call_price := mid.call_price, description := description2,
          fee_paid := mid.fee, locked := lock, status := mid.status,
          asset_longname := asset_longname }
      let assetRow : AssetRow :=
        { asset_id := toString (mid.asset_id.getD 0),
          asset_name := mid.asset.getD "", block_index := tx.block_index,
          asset_longname :=
            if mid.fungible = some true then mid.subasset_longname else none,
          asset_group :=
            if mid.fungible = some true then none else mid.subasset_longname }
      let effects :=
        (if isValid then [Effect.debit tx.source ctx.XCP mid.fee] else []) ++
        (if isValid ∧ mid.reissuance = some false then
           [Effect.insertAssetRow assetRow] else []) ++
        (if pyIn "integer overflow" mid.status then []
         else [Effect.insertIssuanceRow row]) ++
        (if mid.fungible ≠ some true then
           [Effect.assetgroupCreate asset_longname issuer mid.status] else []) ++
        (if isValid ∧ quantity.truthy then
           [Effect.credit tx.source (mid.asset.getD "") quantity.intOr0] else [])
      some { status := mid.status, effects := effects }

/-- The parse function (issuance.py lines 417-604): decode and validate,
then apply the ledger effects.  none models an uncaught exception. -/
def parse (ctx : Ctx) (db : DB) (tx : Tx) (message : List Nat)
    (message_type_id : Nat) : Option ParseResult :=
  (parseStage1 ctx db tx message message_type_id).bind (effectStage ctx db tx)

/-! ## Concrete instances for the scenario theorems -/

/-- A mainnet context with every feature gate off and small, honest
collaborator behaviours: asset id 1000 names TESTASSET, other ids fail;
UTF-8 decoding is exact on the empty byte string (the only description the
scenarios decode). -/
def plainCtx : Ctx :=
  { TESTNET := false, REGTEST := false, BTC := "BTC", XCP := "XCP",
    enabled := fun _ => false,
    dispenserIsOpened := fun _ _ => false,
    assetgroupValidate := fun _ _ _ => [],
    generateAssetName := fun n => if n = 1000 then some "TESTASSET" else none,
    expandSubassetLongname := fun _ => "",
    validateSubassetLongname := fun _ => true,
    validateSubassetLongnameGroup := fun _ => true,
    parseSubassetFromAssetName := fun s => (s, some s),
    decodeCallPrice := fun _ => 0,
    utf8Decode := fun b => if b = [] then some "" else none,
    utf8DecodeReplace := fun _ => "" }

/-- Context of the claim C1 scenario: mainnet with integer_overflow_fix
enabled. -/
def ctxC1 : Ctx :=
  { plainCtx with enabled := fun g => g == "integer_overflow_fix" }

/-- The prior valid issuance of the claim C1 scenario: TESTASSET with the
running total MAX_INT - 10. -/
def rowC1 : IssuanceRow :=
  { tx_index := 1, asset := "TESTASSET", quantity := MAX_INT - 10,
    divisible := true, listed := true, reassignable := true,
    vendable := true, fungible := true, issuer := "aSource",
    callable_ := false, call_date := 0, call_price := 0, description := "",
    locked := false, status := "valid", asset_longname := none }

/-- Ledger of the claim C1 scenario. -/
def dbC1 : DB := { issuances := [rowC1], assets := [], balances := [] }

/-- Host transaction of the claim C1 scenario, at mainnet block 320000. -/
def txC1 : Tx :=
  { tx_index := 2, tx_hash := "txhash2", block_index := 320000,
    source := "aSource", destination := none }

/-- The otherwise-valid reissuance message of the claim C1 scenario:
asset id 1000, quantity 100, flags matching the prior issuance, not
callable, empty description. -/
def msgC1 : List Nat := compose20body 1000 100 true true true true true false 0 0 []

/-- An empty ledger. -/
def dbEmpty : DB := { issuances := [], assets := [], balances := [] }

/-- Whether an effect is the util.debit call. -/
def Effect.isDebit : Effect → Bool
  | .debit _ _ _ => true
  | _ => false

/-- Whether an effect is the util.credit call. -/
def Effect.isCredit : Effect → Bool
  | .credit _ _ _ => true
  | _ => false

/-- Whether an effect is the assets-table insert. -/
def Effect.isInsertAsset : Effect → Bool
  | .insertAssetRow _ => true
  | _ => false

/-- Whether an effect is the issuances-table insert. -/
def Effect.isInsertIssuance : Effect → Bool
  | .insertIssuanceRow _ => true
  | _ => false

/-- Context of the claim C6 scenarios: mainnet with issuance_lock_fix
enabled. -/
def ctxC6 : Ctx :=
  { plainCtx with enabled := fun g => g == "issuance_lock_fix" }

/-- A prior valid issuance of TESTASSET that is locked. -/
def rowC6 : IssuanceRow := { rowC1 with quantity := 500, locked := true }

/-- Ledger of the claim C6 scenario. -/
def dbC6 : DB := { issuances := [rowC6], assets := [], balances := [] }

/-- A zero-quantity reissuance message for the claim C6 scenario. -/
def msgC6 : List Nat := compose20body 1000 0 true true true true true false 0 0 []

/-- The issuances row parse writes for an undecodable three-byte message
in the claim C7 witness scenario. -/
def rowC7 : InsRow :=
  { tx_index := 2, tx_hash := "txhash2", block_index := 320000,
    asset := none, quantity := .vnone, divisible := none, vendable := none,
    listed := none, reassignable := none, fungible := none,
    source := "aSource", issuer := "aSource", transfer := false,
    callable_ := none, call_date := .vnone, call_price := .vnone,
    description := none, fee_paid := 0, locked := false,
    status := "invalid: could not unpack", asset_longname := none }

/-- The parse result of the claim C7 witness scenario. -/
def resC7 : ParseResult :=
  { status := "invalid: could not unpack",
    effects := [Effect.insertIssuanceRow rowC7,
      Effect.assetgroupCreate none "aSource" "invalid: could not unpack"] }

/-- Ledger for the gate-off half of claim C6: a locked valid issuance
followed by a more recent unlocked one. -/
def dbC6b : DB := { issuances := [rowC6, rowC1], assets := [], balances := [] }

/-- The issuances row parse writes in the claim C6 witness scenario: a
valid zero-quantity reissuance of the locked TESTASSET. -/
def rowInsC6 : InsRow :=
  { tx_index := 2, tx_hash := "txhash2", block_index := 320000,
    asset := some "TESTASSET", quantity := .vint 0, divisible := some true,
    vendable := some true, listed := some true, reassignable := some true,
    fungible := some true, source := "aSource", issuer := "aSource",
    transfer := false, callable_ := some false, call_date := .vint 0,
    call_price := .vfloat 0, description := some "", fee_paid := 0,
    locked := false, status := "valid", asset_longname := none }

/-- The parse result of the claim C6 witness scenario. -/
def resC6 : ParseResult :=
  { status := "valid",
    effects := [Effect.debit "aSource" "XCP" 0,
      Effect.insertIssuanceRow rowInsC6] }

end Issuance

namespace Issuance

/-! ## Arithmetic lemmas for the codec -/

theorem beBytes_length (k n : Nat) : (beBytes k n).length = k := by
  induction k generalizing n with
  | zero => rfl
  | succ k ih => simp [beBytes, ih]

theorem beBytes_foldl (k n a : Nat) :
    (beBytes k n).foldl (fun a b => a * 256 + b) a = a * 256 ^ k + n % 256 ^ k := by
  induction k generalizing a with
  | zero => simp [beBytes, Nat.mod_one]
  | succ k ih =>
      have hsplit : n % 256 ^ (k + 1) = n / 256 ^ k % 256 * 256 ^ k + n % 256 ^ k := by
        rw [pow_succ]
        conv_lhs => rw [← Nat.div_add_mod (n % (256 ^ k * 256)) (256 ^ k)]
        rw [Nat.mod_mul_right_div_self, Nat.mod_mod_of_dvd _ ⟨256, rfl⟩]
        ring
      show List.foldl _ (a * 256 + n / 256 ^ k % 256) (beBytes k n) = _
      rw [ih, hsplit]
      ring

theorem beToNat_beBytes (k n : Nat) (h : n < 256 ^ k) :
    beToNat (beBytes k n) = n := by
  have := beBytes_foldl k n 0
  simpa [beToNat, Nat.mod_eq_of_lt h] using this

theorem take_beBytes_append (k n : Nat) (rest : List Nat) :
    (beBytes k n ++ rest).take k = beBytes k n :=
  List.take_left' (beBytes_length k n)

theorem drop_beBytes_append (k n : Nat) (rest : List Nat) :
    (beBytes k n ++ rest).drop k = rest :=
  List.drop_left' (beBytes_length k n)

theorem pascalBytes_drop (message : List Nat) :
    pascalBytes (message.drop 26) =
      (message.drop 27).take ((message.drop 26).headD 0) := by
  have h27 : message.drop 27 = (message.drop 26).tail := by
    rw [List.tail_drop]
  cases hd : message.drop 26 with
  | nil => simp [pascalBytes, h27, hd]
  | cons x xs => simp [pascalBytes, h27, hd]

/-! ## Claim C5: flag bits -/

/-- Claim C5 (confirmed): for every flags byte value from 0 to 31 the
encoder and the decoder use exactly the section 4.1 bit mapping: bit 0
set means divisible true, bit 1 set means listed false, bit 2 set means
reassignable false, bit 3 set means vendable false, bit 4 set means
fungible false; moreover the two are mutually inverse on this range. -/
theorem C5_flag_bits :
    (∀ flags, flags < 32 →
      flagsDecode flags =
        (flags.testBit 0, !flags.testBit 1, !flags.testBit 2,
         !flags.testBit 3, !flags.testBit 4) ∧
      flagsEncode (flagsDecode flags).1 (flagsDecode flags).2.1
        (flagsDecode flags).2.2.1 (flagsDecode flags).2.2.2.1
        (flagsDecode flags).2.2.2.2 = flags) ∧
    (∀ d l r v f : Bool, flagsDecode (flagsEncode d l r v f) = (d, l, r, v, f)) := by
  constructor
  · decide
  · decide

/-- Concrete instance of the claim C5 theorem at flags byte 21 and at the
boolean tuple (true, false, true, false, true). -/
theorem C5_flag_bits_witness :
    (flagsDecode 21 =
       ((21:Nat).testBit 0, !(21:Nat).testBit 1, !(21:Nat).testBit 2,
        !(21:Nat).testBit 3, !(21:Nat).testBit 4)) ∧
    flagsDecode (flagsEncode true false true false true) =
      (true, false, true, false, true) :=
  ⟨(C5_flag_bits.1 21 (by decide)).1, C5_flag_bits.2 true false true false true⟩

/-! ## Claim C4: the Pascal versus raw-tail boundary -/

/-- Claim C4 (amended): when decoding a Type 20 long (FORMAT_2) message,
the choice between the length-prefixed (Pascal) description variant and
the raw byte-tail variant is computed from len(message) - LENGTH_2 where
LENGTH_2 = 26 (not 22): the Pascal variant (one length byte at offset 26,
then that many following bytes) is used iff that difference is at most
42, and otherwise the whole tail from offset 26 is the description. -/
theorem C4_variant_boundary (message : List Nat)
    (h : LENGTH_2 ≤ message.length) :
    (message.length - LENGTH_2 ≤ 42 →
      (unpack20 message).map (fun u => u.description) =
        some ((message.drop 27).take ((message.drop 26).headD 0))) ∧
    (42 < message.length - LENGTH_2 →
      (unpack20 message).map (fun u => u.description) =
        some (message.drop 26)) := by
  have hlt : ¬(message.length < LENGTH_2) := Nat.not_lt.mpr h
  constructor
  · intro hc
    simp [unpack20, hlt, hc, pascalBytes_drop]
  · intro hc
    simp [unpack20, hlt, Nat.not_le.mpr hc]

/-- Concrete instance of the claim C4 theorem on a 26-byte message (empty
tail, Pascal side of the boundary). -/
theorem C4_variant_boundary_witness :
    (unpack20 (List.replicate 26 0)).map (fun u => u.description) =
      some (((List.replicate 26 0).drop 27).take
        (((List.replicate 26 0).drop 26).headD 0)) :=
  (C4_variant_boundary (List.replicate 26 0) (by decide)).1 (by decide)

/-- Claim C4 as stated is false: on this 68-byte message the claimed
discriminant is len - 22 = 46 > 42, so the claim predicts the raw
byte-tail variant, yet the decoder (which tests len - 26 = 42 <= 42)
takes the Pascal variant and returns the five length-prefixed bytes
rather than the 42-byte raw tail. -/
theorem C4_counterexample :
    42 < (List.replicate 26 0 ++ [5] ++ List.replicate 41 97).length - 22 ∧
    (unpack20 (List.replicate 26 0 ++ [5] ++ List.replicate 41 97)).map
        (fun u => u.description) = some (List.replicate 5 97) ∧
    (unpack20 (List.replicate 26 0 ++ [5] ++ List.replicate 41 97)).map
        (fun u => u.description) ≠
      some ((List.replicate 26 0 ++ [5] ++ List.replicate 41 97).drop 26) := by
  refine ⟨by decide, by decide, by decide⟩

/-! ## Claim C3: codec round-trip -/

theorem unpack20_of_shape (A B C D T : List Nat) (fl cb : Nat)
    (hA : A.length = 8) (hB : B.length = 8) (hC : C.length = 4)
    (hD : D.length = 4) :
    unpack20 (A ++ (B ++ ([fl] ++ ([cb] ++ (C ++ (D ++ T)))))) =
      some { asset_id := beToNat A, quantity := beToNat B, flags := fl,
             callable_ := cb != 0, call_date := beToNat C,
             call_price_word := beToNat D,
             description := if T.length ≤ 42 then pascalBytes T else T } := by
  have hlen : (A ++ (B ++ ([fl] ++ ([cb] ++ (C ++ (D ++ T)))))).length
      = 26 + T.length := by
    simp [hA, hB, hC, hD]
    omega
  have d8 : (A ++ (B ++ ([fl] ++ ([cb] ++ (C ++ (D ++ T)))))).drop 8
      = B ++ ([fl] ++ ([cb] ++ (C ++ (D ++ T)))) := List.drop_left' hA
  have d16 : (A ++ (B ++ ([fl] ++ ([cb] ++ (C ++ (D ++ T)))))).drop 16
      = [fl] ++ ([cb] ++ (C ++ (D ++ T))) := by
    have e : (16:Nat) = 8 + 8 := by norm_num
    rw [e, ← List.drop_drop, d8]
    exact List.drop_left' hB
  have d17 : (A ++ (B ++ ([fl] ++ ([cb] ++ (C ++ (D ++ T)))))).drop 17
      = [cb] ++ (C ++ (D ++ T)) := by
    have e : (17:Nat) = 16 + 1 := by norm_num
    rw [e, ← List.drop_drop, d16]
    rfl
  have d18 : (A ++ (B ++ ([fl] ++ ([cb] ++ (C ++ (D ++ T)))))).drop 18
      = C ++ (D ++ T) := by
    have e : (18:Nat) = 17 + 1 := by norm_num
    rw [e, ← List.drop_drop, d17]
    rfl
  have d22 : (A ++ (B ++ ([fl] ++ ([cb] ++ (C ++ (D ++ T)))))).drop 22
      = D ++ T := by
    have e : (22:Nat) = 18 + 4 := by norm_num
    rw [e, ← List.drop_drop, d18]
    exact List.drop_left' hC
  have d26 : (A ++ (B ++ ([fl] ++ ([cb] ++ (C ++ (D ++ T)))))).drop 26 = T := by
    have e : (26:Nat) = 22 + 4 := by norm_num
    rw [e, ← List.drop_drop, d22]
    exact List.drop_left' hD
  rw [unpack20, if_neg (by rw [hlen]; simp [LENGTH_2])]
  rw [hlen, List.take_left' hA, d8, List.take_left' hB, d16, d17, d18,
    List.take_left' hC, d22, List.take_left' hD, d26]
  simp [LENGTH_2]

/-- Claim C3 (amended): for every valid tuple whose encoded description
is not exactly 42 bytes long, decoding the bytes produced by the Type 20
encoder of compose with the Type 20 decoder of parse recovers the tuple
exactly; the call_price field is recovered as its 32-bit wire word, which
the source then maps through the same IEEE-754 conversion and rounding to
6 decimals on both sides (the claimed rounding caveat lives entirely in
that conversion).  At a description of exactly 42 bytes the decoder takes
the raw-tail variant on a Pascal-encoded field, which is the boundary the
counterexample exhibits. -/
theorem C3_roundtrip (asset_id quantity call_date call_price_word : Nat)
    (d l r v f c : Bool) (desc : List Nat)
    (h1 : asset_id < 2 ^ 64) (h2 : quantity < 2 ^ 64)
    (h3 : call_date < 2 ^ 32) (h4 : call_price_word < 2 ^ 32)
    (h5 : desc.length ≠ 42) :
    unpack20 (compose20body asset_id quantity d l r v f c call_date
        call_price_word desc) =
      some { asset_id := asset_id, quantity := quantity,
             flags := flagsEncode d l r v f, callable_ := c,
             call_date := call_date, call_price_word := call_price_word,
             description := desc } := by
  have e8 : (2:Nat) ^ 64 = 256 ^ 8 := by norm_num
  have e4 : (2:Nat) ^ 32 = 256 ^ 4 := by norm_num
  have hshape : compose20body asset_id quantity d l r v f c call_date
      call_price_word desc =
      beBytes 8 asset_id ++ (beBytes 8 quantity ++
        ([flagsEncode d l r v f] ++ ([if c then 1 else 0] ++
          (beBytes 4 call_date ++ (beBytes 4 call_price_word ++
            (if desc.length ≤ 42 then desc.length :: desc else desc)))))) := by
    simp [compose20body, List.append_assoc]
  rw [hshape, unpack20_of_shape _ _ _ _ _ _ _ (beBytes_length 8 asset_id)
    (beBytes_length 8 quantity) (beBytes_length 4 call_date)
    (beBytes_length 4 call_price_word)]
  rw [beToNat_beBytes 8 asset_id (e8 ▸ h1), beToNat_beBytes 8 quantity (e8 ▸ h2),
    beToNat_beBytes 4 call_date (e4 ▸ h3),
    beToNat_beBytes 4 call_price_word (e4 ▸ h4)]
  have hcb : ((if c then (1:Nat) else 0) != 0) = c := by cases c <;> rfl
  rw [hcb]
  rcases le_or_lt desc.length 42 with h42 | h42
  · have h41 : desc.length ≤ 41 := by omega
    rw [if_pos h42]
    have hT : (desc.length :: desc).length ≤ 42 := by simp; omega
    rw [if_pos hT]
    simp [pascalBytes]
  · have hn : ¬desc.length ≤ 42 := by omega
    rw [if_neg hn, if_neg hn]

/-- Concrete instance of the claim C3 theorem: a two-byte description
round-trips through the Type 20 codec. -/
theorem C3_roundtrip_witness :
    unpack20 (compose20body 7 9 true false true false true true 11 13
        [104, 105]) =
      some { asset_id := 7, quantity := 9,
             flags := flagsEncode true false true false true,
             callable_ := true, call_date := 11, call_price_word := 13,
             description := [104, 105] } :=
  C3_roundtrip 7 9 11 13 true false true false true true [104, 105]
    (by decide) (by decide) (by decide) (by decide) (by decide)

/-- Claim C3 as stated is false at a 42-byte description (a valid tuple):
the encoder writes it as a Pascal field of 43 bytes, the decoder sees a
43-byte tail, takes the raw variant and returns the length byte glued to
the front of the description, so the tuple is not recovered. -/
theorem C3_counterexample :
    (unpack20 (compose20body 1 2 true true true true true false 0 0
        (List.replicate 42 97))).map (fun u => u.description) =
      some (42 :: List.replicate 42 97) ∧
    (42 :: List.replicate 42 97) ≠ List.replicate 42 97 := by
  refine ⟨by decide, by decide⟩

/-! ## validate on well-typed inputs -/

theorem validate_typed (ctx : Ctx) (db : DB) (source : String)
    (destination : Option String) (asset : String) (qi : Int)
    (dv ls rs vd fg : Option Bool) (cb : Bool) (cd : Int) (cp : Rat)
    (description : Option String) (sp sl : Option String) (blk : Int) :
    validate ctx db source destination asset (.vint qi) dv ls rs vd fg cb
        (.vint cd) (.vfloat cp) description sp sl blk =
      (some (validateMain ctx db source destination asset qi (dv.getD true)
          (ls.getD true) (rs.getD true) (vd.getD true) (fg.getD true) cb cd
          cp (description.getD "") sp sl blk (vpReserved ctx asset)).1,
       (validateMain ctx db source destination asset qi (dv.getD true)
          (ls.getD true) (rs.getD true) (vd.getD true) (fg.getD true) cb cd
          cp (description.getD "") sp sl blk (vpReserved ctx asset)).2) := by
  simp [validate, typeCheckProblem, PyVal.isInt, PyVal.truthy, PyVal.isFloat,
    PyVal.widen, PyVal.asIntValue, PyVal.asRatValue]

theorem validate_fst (ctx : Ctx) (db : DB) (source : String)
    (destination : Option String) (asset : String) (qi : Int)
    (dv ls rs vd fg : Option Bool) (cb : Bool) (cd : Int) (cp : Rat)
    (description : Option String) (sp sl : Option String) (blk : Int) :
    (validate ctx db source destination asset (.vint qi) dv ls rs vd fg cb
        (.vint cd) (.vfloat cp) description sp sl blk).1 =
      some (validateMain ctx db source destination asset qi (dv.getD true)
          (ls.getD true) (rs.getD true) (vd.getD true) (fg.getD true) cb cd
          cp (description.getD "") sp sl blk (vpReserved ctx asset)).1 := by
  rw [validate_typed]

theorem computeFee_eq_spec (ctx : Ctx) (blk : Int) (asset : String)
    (sl : Option String) (fungible : Bool)
    (hT : ctx.TESTNET = false) (hR : ctx.REGTEST = false) :
    computeFee ctx blk asset sl fungible =
      feeScheduleSpec ctx.enabled blk asset sl.isSome fungible := by
  rw [computeFee, feeScheduleSpec]
  simp only [hT, hR, Bool.false_eq_true, or_false, false_or]
  split_ifs <;> simp [UNIT]

/-! ## Claim C2: fee schedule -/

/-- Claim C2 (amended): for every mainnet issuance candidate with
well-typed numeric fields that passes the fee gates (quantity > 0 or
block_index at least 315000, and not a reissuance unless block_index is
below 310000), validate computes exactly the section 4.2 fee schedule,
where the fee_revision_2021_1q multiplication by 100 applies inside the
numeric_asset_names branches only; the pre-numeric era rows (0.5 x UNIT
from 291700, 5 x UNIT from 286000, 5 above 281236) are never
multiplied. -/
theorem C2_fee_schedule (ctx : Ctx) (db : DB) (source : String)
    (destination : Option String) (asset : String) (qi : Int)
    (dv ls rs vd fg : Option Bool) (cb : Bool) (cd : Int) (cp : Rat)
    (description : Option String) (sp sl : Option String) (blk : Int)
    (hT : ctx.TESTNET = false) (hR : ctx.REGTEST = false)
    (hq : 0 < qi ∨ 315000 ≤ blk)
    (hre : validIssuancesOf db asset = [] ∨ blk < 310000) :
    ((validate ctx db source destination asset (.vint qi) dv ls rs vd fg cb
        (.vint cd) (.vfloat cp) description sp sl blk).1.map
      (fun vout => vout.fee)) =
    some (feeScheduleSpec ctx.enabled blk asset sl.isSome (fg.getD true)) := by
  rw [validate_typed]
  simp only [Option.map_some']
  simp only [validateMain]
  rw [feeSection, if_pos ?cond]
  case cond =>
    constructor
    · rcases hq with h | h
      · exact Or.inl (by omega)
      · exact Or.inr (Or.inl h)
    · rcases hre with h | h
      · exact Or.inl (by simp [h])
      · exact Or.inr ⟨h, by simp [hT], by simp [hR]⟩
  simp [computeFee_eq_spec ctx blk asset sl (fg.getD true) hT hR]

/-- Concrete instance of the claim C2 theorem: a first issuance of a
fungible sub-asset at block 320000 with numeric_asset_names, subassets
and fee_revision_2021_1q enabled. -/
theorem C2_fee_schedule_witness :
    ((validate
        { plainCtx with enabled := fun g => g == "numeric_asset_names" ||
            g == "subassets" || g == "fee_revision_2021_1q" }
        ⟨[], [], []⟩ "src" none "A123" (.vint 1000) none none none none none
        false (.vint 0) (.vfloat 0) (some "") (some "A123")
        (some "A123.X") 320000).1.map (fun vout => vout.fee)) =
    some (feeScheduleSpec
        (Ctx.enabled { plainCtx with enabled := fun g =>
            g == "numeric_asset_names" || g == "subassets" ||
            g == "fee_revision_2021_1q" })
        320000 "A123" (Option.isSome (some "A123.X"))
        (Option.getD (none : Option Bool) true)) :=
  C2_fee_schedule
    { plainCtx with enabled := fun g => g == "numeric_asset_names" ||
        g == "subassets" || g == "fee_revision_2021_1q" }
    ⟨[], [], []⟩ "src" none "A123" 1000 none none none none none false 0 0
    (some "") (some "A123") (some "A123.X") 320000 rfl rfl
    (Or.inl (by norm_num)) (Or.inl rfl)

/-- Claim C2 as stated is false: at mainnet block 291700, a first
issuance of quantity 1000 (so the fee gates pass) with
fee_revision_2021_1q enabled and numeric_asset_names disabled is charged
the unmultiplied pre-numeric fee 0.5 x UNIT = 50000000; the claim's
multiply-by-100-in-every-branch schedule would demand 5000000000. -/
theorem C2_counterexample :
    ((validate { plainCtx with enabled := fun g => g == "fee_revision_2021_1q" }
        ⟨[], [], []⟩ "src" none "ASSET1" (.vint 1000) none none none none
        none false (.vint 0) (.vfloat 0) (some "") none none 291700).1.map
      (fun vout => vout.fee)) = some 50000000 ∧
    (50000000 : Int) ≠ 5000000000 := by
  refine ⟨by decide, by decide⟩

/-! ## The problems list of validate, string by string -/

theorem mem_ite_list {α : Type} {c : Prop} [Decidable c] {l1 l2 : List α}
    {x : α} : x ∈ (if c then l1 else l2) ↔ (c ∧ x ∈ l1) ∨ (¬c ∧ x ∈ l2) := by
  split <;> simp_all

theorem reserved_ne (b c s : String) (hs : s.data.head? ≠ some 'c') :
    "cannot issue " ++ b ++ " or " ++ c ≠ s := by
  intro h
  apply hs
  rw [← h, String.data_append, String.data_append, String.data_append,
    show "cannot issue ".data = 'c' :: "annot issue ".data from rfl]
  simp [List.cons_append]

theorem invalid_ne_valid (s : String) : "invalid: " ++ s ≠ "valid" := by
  intro h
  have hl := congrArg String.length h
  rw [String.length_append] at hl
  have h9 : ("invalid: ").length = 9 := by decide
  have h5 : ("valid").length = 5 := by decide
  omega

theorem mem_vpReserved {ctx : Ctx} {asset x : String}
    (h : x ∈ vpReserved ctx asset) :
    x = "cannot issue " ++ ctx.BTC ++ " or " ++ ctx.XCP := by
  rw [vpReserved] at h
  split_ifs at h <;> simp_all

theorem mem_callability {ctx : Ctx} {cb : Bool} {blk : Int} {cd : Int}
    {cp : Rat} {x : String} (h : x ∈ (callability ctx cb blk cd cp).2.2) :
    x = "call date for non‐callable asset" ∨
    x = "call price for non‐callable asset" := by
  rw [callability] at h
  split_ifs at h <;> simp_all [mem_ite_list]

theorem mem_vpParent {ctx : Ctx} {db : DB} {source : String} {f2 : Bool}
    {sp sl : Option String} {x : String}
    (h : x ∈ (vpParent ctx db source f2 sp sl).1) :
    x = "parent asset owned by another address" ∨
    x = "parent asset not found" ∨
    ∃ ln, sl = some ln ∧ x ∈ ctx.assetgroupValidate db ln source := by
  rcases sl with _ | ln
  · simp [vpParent] at h
  · rw [vpParent.eq_def] at h
    simp only [] at h
    split_ifs at h with hf
    · rcases hp : (match sp with
        | some p => validIssuancesOf db p
        | none => ([] : List IssuanceRow)).getLast? with _ | lastParent <;>
        rw [hp] at h
      · simp_all
      · simp only [mem_ite_list] at h
        simp_all
    · exact Or.inr (Or.inr ⟨ln, rfl, by simpa using h⟩)

theorem mem_vpDup {db : DB} {asset : String} {f2 : Bool} {sl : Option String}
    {re : Bool} {x : String} (h : x ∈ (vpDup db asset f2 sl re).1) :
    x = "subasset already exists" ∨ x = "parent asset must be a numeric asset" := by
  rcases sl with _ | ln
  · simp [vpDup] at h
  · rw [vpDup.eq_def] at h
    split_ifs at h <;> simp_all [mem_ite_list] <;> tauto

theorem mem_feeSection {ctx : Ctx} {db : DB} {source asset : String}
    {sl : Option String} {f2 re : Bool} {qi blk : Int} {x : String}
    (h : x ∈ (feeSection ctx db source asset sl f2 re qi blk).2.1) :
    x = "insufficient funds" := by
  rw [feeSection] at h
  split_ifs at h <;> simp_all [mem_ite_list]

/-- Where the string description too long can come from: exactly the
length check of lines 302-304, provided the external assetgroup validator
never emits that string (its problem texts live in the assetgroup module
and are distinct from the issuance ones). -/
theorem validateMain_descTooLong (ctx : Ctx) (db : DB) (source : String)
    (destination : Option String) (asset : String) (qi : Int)
    (d l r v f2 cb : Bool) (cd : Int) (cp : Rat) (desc : String)
    (sp sl : Option String) (blk : Int)
    (hag : ∀ ln s, "description too long" ∉ ctx.assetgroupValidate db ln s) :
    ("description too long" ∈ (validateMain ctx db source destination asset
        qi d l r v f2 cb cd cp desc sp sl blk
        (vpReserved ctx asset)).1.problems ↔
      (¬(blk ≥ 317500 ∨ ctx.TESTNET = true ∨ ctx.REGTEST = true) ∧
        42 < desc.length)) := by
  constructor
  · intro h
    rcases hlast : (validIssuancesOf db asset).getLast? with _ | last <;>
      simp only [validateMain, hlast, List.mem_append, vpFungible, vpSign,
        vpReissue, vpFirst, vpDescLen, vpListed, vpReassignable, vpTotal,
        vpTransfer, vpIntOverflow, mem_ite_list, List.mem_singleton,
        List.not_mem_nil, and_false, false_and, or_false, false_or,
        and_true, String.reduceEq] at h <;>
      rcases h with ((((h | h) | h) | h) | h) | h <;>
      first
        | exact h
        | exact absurd (mem_vpReserved h).symm
            (reserved_ne ctx.BTC ctx.XCP "description too long" (by decide))
        | (rcases mem_callability h with h | h <;> simp at h)
        | (rcases mem_vpParent h with h | h | ⟨ln, hln, h⟩ <;>
            first
              | simp at h
              | exact absurd h (hag ln source))
        | (rcases mem_vpDup h with h | h <;> simp at h)
        | (have hfee := mem_feeSection h; simp at hfee)
  · intro hc
    rcases hlast : (validIssuancesOf db asset).getLast? with _ | last <;>
      simp only [validateMain, hlast, List.mem_append, vpDescLen,
        mem_ite_list, List.mem_singleton] <;>
      tauto

/-! ## Claim C8: description length -/

/-- Claim C8 (amended): for every mainnet issuance at block_index below
317500 with well-typed numeric fields, validate adds description too long
to the problems list exactly when the description exceeds 42 characters
(code points, what Python len measures on the decoded str), not 42 bytes;
the external assetgroup validator is assumed not to emit that exact
string, its messages being the assetgroup module's own. -/
theorem C8_description_length (ctx : Ctx) (db : DB) (source : String)
    (destination : Option String) (asset : String) (qi : Int)
    (dv ls rs vd fg : Option Bool) (cb : Bool) (cd : Int) (cp : Rat)
    (desc : String) (sp sl : Option String) (blk : Int)
    (hT : ctx.TESTNET = false) (hR : ctx.REGTEST = false)
    (hblk : blk < 317500)
    (hag : ∀ ln s, "description too long" ∉ ctx.assetgroupValidate db ln s) :
    ((validate ctx db source destination asset (.vint qi) dv ls rs vd fg cb
        (.vint cd) (.vfloat cp) (some desc) sp sl blk).1.map
      (fun vout => decide ("description too long" ∈ vout.problems))) =
    some (decide (42 < desc.length)) := by
  rw [validate_fst]
  simp only [Option.map_some']
  refine congrArg some (decide_eq_decide.mpr ?_)
  simp only [Option.getD_some]
  rw [validateMain_descTooLong ctx db source destination asset qi
    (dv.getD true) (ls.getD true) (rs.getD true) (vd.getD true)
    (fg.getD true) cb cd cp desc sp sl blk hag]
  constructor
  · exact fun h => h.2
  · intro h
    refine ⟨?_, h⟩
    simp only [hT, hR, Bool.false_eq_true, or_false]
    omega

/-- Concrete instance of the claim C8 theorem at a 43-character
description on an empty ledger at block 317499. -/
theorem C8_description_length_witness :
    ((validate plainCtx dbEmpty "src" none "ASSET1" (.vint 10) none none
        none none none false (.vint 0) (.vfloat 0)
        (some (String.mk (List.replicate 43 'a'))) none none 317499).1.map
      (fun vout => decide ("description too long" ∈ vout.problems))) =
    some (decide (42 < (String.mk (List.replicate 43 'a')).length)) :=
  C8_description_length plainCtx dbEmpty "src" none "ASSET1" 10 none none
    none none none false 0 0 (String.mk (List.replicate 43 'a')) none none
    317499 rfl rfl (by norm_num) (fun ln s => by simp [plainCtx])

/-- Claim C8 as stated is false: the code compares len(description) in
characters, not bytes.  This description of 22 three-byte characters is
66 UTF-8 bytes long, well over 42 bytes, yet validate does not add
description too long at mainnet block 317499, because the character
length 22 is within 42. -/
theorem C8_counterexample :
    (String.mk (List.replicate 22 'あ')).utf8ByteSize = 66 ∧ 42 < 66 ∧
    ((validate plainCtx dbEmpty "src" none "ASSET1" (.vint 10) none none
        none none none false (.vint 0) (.vfloat 0)
        (some (String.mk (List.replicate 22 'あ'))) none none 317499).1.map
      (fun vout => decide ("description too long" ∈ vout.problems))) =
    some false := by
  refine ⟨by decide, by decide, by decide⟩

/-! ## Claim C9: the type checks -/

/-- Claim C9 (amended): for every input to validate in which quantity is
not an integer, or the None-defaulted call_date is truthy and not an
integer, or the None-defaulted and int-widened call_price is truthy and
not a float, validate returns immediately (reissuance is None) and the
returned problems list has exactly one element, unless the asset is the
reserved native-coin or native-asset name, in which case the
reserved-name problem collected first makes it two elements. -/
theorem C9_type_checks (ctx : Ctx) (db : DB) (source : String)
    (destination : Option String) (asset : String) (quantity : PyVal)
    (dv ls rs vd fg : Option Bool) (cb : Bool)
    (call_date call_price : PyVal) (description : Option String)
    (sp sl : Option String) (blk : Int)
    (h : quantity.isInt = false ∨
         ((if call_date = .vnone then .vint 0 else call_date).truthy = true ∧
          (if call_date = .vnone then .vint 0 else call_date).isInt = false) ∨
         (((if call_price = .vnone then .vfloat 0 else call_price).widen).truthy = true ∧
          ((if call_price = .vnone then .vfloat 0 else call_price).widen).isFloat = false)) :
    ((validate ctx db source destination asset quantity dv ls rs vd fg cb
        call_date call_price description sp sl blk).1.map
      (fun vout => (vout.reissuance, vout.problems.length))) =
    some (none, if asset = ctx.BTC ∨ asset = ctx.XCP then 2 else 1) := by
  have hsome : (typeCheckProblem quantity
      (if call_date = .vnone then .vint 0 else call_date)
      ((if call_price = .vnone then .vfloat 0 else call_price).widen)).isSome = true := by
    rw [typeCheckProblem]
    by_cases a : ¬(quantity.isInt = true)
    · rw [if_pos a]
      rfl
    · rw [if_neg a]
      by_cases bb : (if call_date = PyVal.vnone then PyVal.vint 0 else call_date).truthy = true ∧
          ¬((if call_date = PyVal.vnone then PyVal.vint 0 else call_date).isInt = true)
      · rw [if_pos bb]
        rfl
      · rw [if_neg bb]
        by_cases cc : ((if call_price = PyVal.vnone then PyVal.vfloat 0 else call_price).widen).truthy = true ∧
            ¬(((if call_price = PyVal.vnone then PyVal.vfloat 0 else call_price).widen).isFloat = true)
        · rw [if_pos cc]
          rfl
        · rw [if_neg cc]
          exfalso
          rcases h with hq | hd | hp
          · exact a (fun hh => by rw [hq] at hh; exact Bool.false_ne_true hh)
          · exact bb ⟨hd.1, fun hh => by rw [hd.2] at hh; exact Bool.false_ne_true hh⟩
          · exact cc ⟨hp.1, fun hh => by rw [hp.2] at hh; exact Bool.false_ne_true hh⟩
  obtain ⟨msg, hmsg⟩ := Option.isSome_iff_exists.mp hsome
  simp only [validate, hmsg]
  simp only [Option.map_some', earlyVOut, vpReserved]
  split_ifs <;> simp

/-- Concrete instance of the claim C9 theorem: a str quantity on a
non-reserved asset name yields exactly one problem and no reissuance
flag. -/
theorem C9_type_checks_witness :
    ((validate plainCtx dbEmpty "src" none "FOO" (.vstr "x") none none none
        none none false (.vint 0) (.vfloat 0) none none none 320000).1.map
      (fun vout => (vout.reissuance, vout.problems.length))) =
    some (none, if "FOO" = Ctx.BTC plainCtx ∨ "FOO" = Ctx.XCP plainCtx then 2 else 1) :=
  C9_type_checks plainCtx dbEmpty "src" none "FOO" (.vstr "x") none none
    none none none false (.vint 0) (.vfloat 0) none none none 320000
    (Or.inl rfl)

/-- Claim C9 as stated is false: with the reserved asset name XCP and a
str quantity, the reserved-name problem precedes the type-check problem,
so the returned problems list has two elements, not exactly one. -/
theorem C9_counterexample :
    ((validate plainCtx dbEmpty "src" none "XCP" (.vstr "x") none none none
        none none false (.vint 0) (.vfloat 0) none none none 320000).1.map
      (fun vout => vout.problems)) =
      some ["cannot issue BTC or XCP", "quantity must be in satoshis"] ∧
    ¬(["cannot issue BTC or XCP", "quantity must be in satoshis"].length = 1) := by
  refine ⟨by decide, by decide⟩

/-! ## Claim C10: validate is read-only -/

theorem foldl_applyOp_reads (db : DB) (ops : List DBOp)
    (h : ops.all DBOp.isRead = true) : List.foldl applyOp db ops = db := by
  induction ops generalizing db with
  | nil => rfl
  | cons op rest ih =>
      simp only [List.all_cons, Bool.and_eq_true] at h
      have hop : applyOp db op = db := by
        cases op <;> first
          | rfl
          | exact absurd h.1 (by simp [DBOp.isRead])
      rw [List.foldl_cons, hop]
      exact ih db h.2

theorem vpParent_ops_read (ctx : Ctx) (db : DB) (source : String)
    (f2 : Bool) (sp sl : Option String) :
    ((vpParent ctx db source f2 sp sl).2.all DBOp.isRead) = true := by
  rcases sl with _ | ln
  · rfl
  · simp only [vpParent]
    split_ifs <;> rfl

theorem vpDup_ops_read (db : DB) (asset : String) (f2 : Bool)
    (sl : Option String) (re : Bool) :
    ((vpDup db asset f2 sl re).2.all DBOp.isRead) = true := by
  rcases sl with _ | ln
  · rfl
  · simp only [vpDup]
    split_ifs <;> rfl

theorem feeSection_ops_read (ctx : Ctx) (db : DB) (source asset : String)
    (sl : Option String) (f2 re : Bool) (qi blk : Int) :
    ((feeSection ctx db source asset sl f2 re qi blk).2.2.all DBOp.isRead) = true := by
  rw [feeSection]
  split_ifs <;> rfl

theorem validateMain_trace_read (ctx : Ctx) (db : DB) (source : String)
    (destination : Option String) (asset : String) (qi : Int)
    (d l r v f2 cb : Bool) (cd : Int) (cp : Rat) (desc : String)
    (sp sl : Option String) (blk : Int) (p0 : List String) :
    ((validateMain ctx db source destination asset qi d l r v f2 cb cd cp
        desc sp sl blk p0).2.all DBOp.isRead) = true := by
  rcases hlast : (validIssuancesOf db asset).getLast? with _ | last <;>
    simp only [validateMain, hlast] <;>
    simp [List.all_append, vpParent_ops_read, vpDup_ops_read,
      feeSection_ops_read, DBOp.isRead, List.all_eq_true]
  rintro x _ _ _ rfl
  rfl

/-- Claim C10 (confirmed): validate never mutates the ledger.  Every
operation in its trace is a read (the SELECTs on issuances, assets and
balances, plus the two read-only collaborator lookups dispenser.is_opened
and assetgroup.validate), so replaying the trace against the ledger
leaves it unchanged. -/
theorem C10_validate_readonly (ctx : Ctx) (db : DB) (source : String)
    (destination : Option String) (asset : String) (quantity : PyVal)
    (dv ls rs vd fg : Option Bool) (cb : Bool)
    (call_date call_price : PyVal) (description : Option String)
    (sp sl : Option String) (blk : Int) :
    ((validate ctx db source destination asset quantity dv ls rs vd fg cb
        call_date call_price description sp sl blk).2.all DBOp.isRead) = true ∧
    List.foldl applyOp db (validate ctx db source destination asset quantity
        dv ls rs vd fg cb call_date call_price description sp sl blk).2 = db := by
  have hall : ((validate ctx db source destination asset quantity dv ls rs
      vd fg cb call_date call_price description sp sl blk).2.all
        DBOp.isRead) = true := by
    simp only [validate]
    split
    · rfl
    · split
      · simpa using validateMain_trace_read ctx db source destination asset
          _ (dv.getD true) (ls.getD true) (rs.getD true) (vd.getD true)
          (fg.getD true) cb _ _ (description.getD "") sp sl blk
          (vpReserved ctx asset)
      · rfl
  exact ⟨hall, foldl_applyOp_reads db _ hall⟩

/-- Concrete instance of the claim C10 theorem on the claim C1 scenario
ledger. -/
theorem C10_validate_readonly_witness :
    ((validate ctxC1 dbC1 "aSource" none "TESTASSET" (.vint 100) none none
        none none none false (.vint 0) (.vfloat 0) (some "") none none
        320000).2.all DBOp.isRead) = true ∧
    List.foldl applyOp dbC1 (validate ctxC1 dbC1 "aSource" none "TESTASSET"
        (.vint 100) none none none none none false (.vint 0) (.vfloat 0)
        (some "") none none 320000).2 = dbC1 :=
  C10_validate_readonly ctxC1 dbC1 "aSource" none "TESTASSET" (.vint 100)
    none none none none none false (.vint 0) (.vfloat 0) (some "") none
    none 320000

/-! ## The effect stage of parse -/

theorem effectStage_status (ctx : Ctx) (db : DB) (tx : Tx) (mid : Mid)
    (res : ParseResult) (h : effectStage ctx db tx mid = some res) :
    res.status = mid.status := by
  simp only [effectStage] at h
  split at h
  · exact absurd h (by simp)
  · split at h
    · exact absurd h (by simp)
    · injection h with h
      subst h
      rfl

theorem effectStage_invalid (ctx : Ctx) (db : DB) (tx : Tx) (mid : Mid)
    (res : ParseResult) (hne : mid.status ≠ "valid")
    (h : effectStage ctx db tx mid = some res) :
    (res.effects.all
      (fun e => !e.isDebit && !e.isCredit && !e.isInsertAsset)) = true ∧
    (pyIn "integer overflow" mid.status = true →
      res.effects.all (fun e => !e.isInsertIssuance) = true) ∧
    (pyIn "integer overflow" mid.status = false →
      res.effects.any (fun e => match e with
        | Effect.insertIssuanceRow rr => decide (rr.status = mid.status)
        | _ => false) = true) := by
  simp only [effectStage, hne, false_and, if_neg, ite_false] at h
  rcases hov : pyIn "integer overflow" mid.status with _ | _ <;>
    rw [hov] at h <;>
    simp only [if_pos, if_neg, ite_true, ite_false, Bool.false_eq_true,
      not_false_eq_true] at h <;>
    injection h with h <;>
    subst h <;>
    constructor
  · split_ifs <;> simp [Effect.isDebit, Effect.isCredit, Effect.isInsertAsset]
  · constructor
    · intro hi
      split_ifs <;>
        simp_all [Effect.isInsertIssuance]
    · intro hi
      split_ifs <;> simp
  · split_ifs <;> simp [Effect.isDebit, Effect.isCredit, Effect.isInsertAsset]
  · constructor
    · intro hi
      split_ifs <;>
        simp_all [Effect.isInsertIssuance]
    · intro hi
      simp at hi

/-! ## Claim C7: invalid statuses leave the ledger untouched -/

/-- Claim C7 (confirmed): for every parsed message whose status begins
with invalid: (decode, name and validation failures), parse issues no
fee debit, no balance credit and no assets-row insertion, and it persists
an issuances row carrying that status, except that a status containing
integer overflow suppresses the issuances-row write.  (The
assetgroup.create notification of line 590, which parse always issues for
non-fungible or undecodable rows, receives the same status and is outside
the three ledger mutations the claim enumerates.) -/
theorem C7_invalid_frame (ctx : Ctx) (db : DB) (tx : Tx)
    (message : List Nat) (mtid : Nat) (res : ParseResult)
    (h : parse ctx db tx message mtid = some res)
    (hpref : ("invalid:".toList.isPrefixOf res.status.toList) = true) :
    (res.effects.all
      (fun e => !e.isDebit && !e.isCredit && !e.isInsertAsset)) = true ∧
    (pyIn "integer overflow" res.status = true →
      res.effects.all (fun e => !e.isInsertIssuance) = true) ∧
    (pyIn "integer overflow" res.status = false →
      res.effects.any (fun e => match e with
        | Effect.insertIssuanceRow rr => decide (rr.status = res.status)
        | _ => false) = true) := by
  rw [parse] at h
  obtain ⟨mid, h1, h2⟩ := Option.bind_eq_some.mp h
  have hst := effectStage_status ctx db tx mid res h2
  have hne : mid.status ≠ "valid" := by
    intro he
    rw [hst, he] at hpref
    exact absurd hpref (by decide)
  rw [hst]
  exact effectStage_invalid ctx db tx mid res hne h2

/-- Concrete instance of the claim C7 theorem: an undecodable three-byte
message yields a persisted could-not-unpack row and no debit, credit or
assets insert. -/
theorem C7_invalid_frame_witness :
    (resC7.effects.all
      (fun e => !e.isDebit && !e.isCredit && !e.isInsertAsset)) = true ∧
    (pyIn "integer overflow" resC7.status = false →
      resC7.effects.any (fun e => match e with
        | Effect.insertIssuanceRow rr => decide (rr.status = resC7.status)
        | _ => false) = true) := by
  have h := C7_invalid_frame plainCtx dbEmpty txC1 [1, 2, 3] 20 resC7
    (by decide) (by decide)
  exact ⟨h.1, h.2.2⟩

/-! ## Claim C6: lock absorption -/

theorem validateMain_lockMsg_mem (ctx : Ctx) (db : DB) (source : String)
    (destination : Option String) (asset : String) (qi : Int)
    (d l r v f2 cb : Bool) (cd : Int) (cp : Rat) (desc : String)
    (sp sl : Option String) (blk : Int) (last : IssuanceRow)
    (hlast : (validIssuancesOf db asset).getLast? = some last)
    (hlk : lockedFlag ctx (validIssuancesOf db asset) last = true)
    (hq : qi ≠ 0) :
    "locked asset and non‐zero quantity" ∈
      (validateMain ctx db source destination asset qi d l r v f2 cb cd cp
        desc sp sl blk (vpReserved ctx asset)).1.problems := by
  simp only [validateMain, hlast, List.mem_append, vpReissue, mem_ite_list,
    List.mem_singleton, String.reduceEq, List.not_mem_nil, and_false,
    false_and, or_false, false_or, and_true]
  tauto

/-- Where the lock problem can come from: exactly the check of lines
195-203 and 225-226, provided the external assetgroup validator never
emits that string. -/
theorem validateMain_lockMsg_iff (ctx : Ctx) (db : DB) (source : String)
    (destination : Option String) (asset : String) (qi : Int)
    (d l r v f2 cb : Bool) (cd : Int) (cp : Rat) (desc : String)
    (sp sl : Option String) (blk : Int)
    (hag : ∀ ln s, "locked asset and non‐zero quantity" ∉
      ctx.assetgroupValidate db ln s) :
    ("locked asset and non‐zero quantity" ∈
      (validateMain ctx db source destination asset qi d l r v f2 cb cd cp
        desc sp sl blk (vpReserved ctx asset)).1.problems ↔
      ∃ last, (validIssuancesOf db asset).getLast? = some last ∧
        lockedFlag ctx (validIssuancesOf db asset) last = true ∧ qi ≠ 0) := by
  constructor
  · intro h
    rcases hlast : (validIssuancesOf db asset).getLast? with _ | last
    · simp only [validateMain, hlast, List.mem_append, vpFungible, vpSign,
        vpReissue, vpFirst, vpDescLen, vpListed, vpReassignable, vpTotal,
        vpTransfer, vpIntOverflow, mem_ite_list, List.mem_singleton,
        List.not_mem_nil, and_false, false_and, or_false, false_or,
        and_true, String.reduceEq] at h
      rcases h with (((h | h) | h) | h) | h <;>
        first
          | exact absurd (mem_vpReserved h).symm
              (reserved_ne ctx.BTC ctx.XCP
                "locked asset and non‐zero quantity" (by decide))
          | (rcases mem_callability h with h | h <;> simp at h)
          | (rcases mem_vpParent h with h | h | ⟨ln, hln, h⟩ <;>
              first
                | simp at h
                | exact absurd h (hag ln source))
          | (rcases mem_vpDup h with h | h <;> simp at h)
          | (have hfee := mem_feeSection h; simp at hfee)
    · simp only [validateMain, hlast, List.mem_append, vpFungible, vpSign,
        vpReissue, vpFirst, vpDescLen, vpListed, vpReassignable, vpTotal,
        vpTransfer, vpIntOverflow, mem_ite_list, List.mem_singleton,
        List.not_mem_nil, and_false, false_and, or_false, false_or,
        and_true, String.reduceEq] at h
      rcases h with ((((h | h) | h) | h) | h) | h <;>
        first
          | exact ⟨last, rfl, h.1, h.2⟩
          | exact absurd (mem_vpReserved h).symm
              (reserved_ne ctx.BTC ctx.XCP
                "locked asset and non‐zero quantity" (by decide))
          | (rcases mem_callability h with h | h <;> simp at h)
          | (rcases mem_vpParent h with h | h | ⟨ln, hln, h⟩ <;>
              first
                | simp at h
                | exact absurd h (hag ln source))
          | (rcases mem_vpDup h with h | h <;> simp at h)
          | (have hfee := mem_feeSection h; simp at hfee)
  · rintro ⟨last, hlast, hlk, hq⟩
    exact validateMain_lockMsg_mem ctx db source destination asset qi d l r
      v f2 cb cd cp desc sp sl blk last hlast hlk hq

theorem effectStage_row (ctx : Ctx) (db : DB) (tx : Tx) (mid : Mid)
    (res : ParseResult) (row : InsRow)
    (h : effectStage ctx db tx mid = some res)
    (hm : Effect.insertIssuanceRow row ∈ res.effects) :
    row.status = mid.status ∧ row.asset = mid.asset ∧
    row.quantity =
      (if optStrTruthy tx.destination = true then PyVal.vint 0
       else mid.quantity) := by
  simp only [effectStage] at h
  split at h
  · exact absurd h (by simp)
  · split at h
    · exact absurd h (by simp)
    · injection h with h
      subst h
      simp only [List.mem_append, mem_ite_list, List.mem_singleton,
        List.not_mem_nil, and_false, false_and, or_false, false_or,
        reduceCtorEq, Effect.insertIssuanceRow.injEq] at hm
      obtain ⟨-, hrow⟩ := hm
      subst hrow
      refine ⟨rfl, rfl, ?_⟩
      split_ifs <;> rfl

theorem parseValidStep_locked (ctx : Ctx) (db : DB) (tx : Tx)
    (asset_id : Nat) (qn : Int) (d l r v f cb : Bool) (cd : Int) (cp : Rat)
    (desc : String) (sp2 subl2 : Option String) (a0 : String) (mid : Mid)
    (a : String)
    (h : parseValidStep ctx db tx asset_id qn d l r v f cb cd cp desc sp2
      subl2 a0 = some mid)
    (hs : mid.status = "valid") (ha : mid.asset = some a)
    (hgate : ctx.enabled "issuance_lock_fix" = true)
    (hex : ∃ rr ∈ validIssuancesOf db a, rr.locked = true) :
    mid.quantity = PyVal.vint 0 := by
  rw [parseValidStep] at h
  rcases hv : (validate ctx db tx.source tx.destination a0 (.vint qn)
      (some d) (some l) (some r) (some v) (some f) cb (.vint cd)
      (.vfloat cp) (some desc) sp2 subl2 tx.block_index).1 with _ | vout <;>
    rw [hv] at h
  · exact absurd h (by simp)
  · injection h with h
    subst h
    injection ha with ha
    subst ha
    by_cases hp : vout.problems = []
    · have hq0 : qn = 0 := by
        by_contra hqn
        have hne : validIssuancesOf db a0 ≠ [] := by
          rcases hex with ⟨rr, hrr, -⟩
          intro hnil
          rw [hnil] at hrr
          exact absurd hrr (List.not_mem_nil rr)
        obtain ⟨last, hlast⟩ := Option.isSome_iff_exists.mp
          (List.getLast?_isSome.mpr hne)
        have hlk : lockedFlag ctx (validIssuancesOf db a0) last = true := by
          rw [lockedFlag, if_pos hgate]
          rcases hex with ⟨rr, hrr, hrl⟩
          exact List.any_eq_true.mpr ⟨rr, hrr, hrl⟩
        have hmem := validateMain_lockMsg_mem ctx db tx.source
          tx.destination a0 qn d l r v f cb cd cp desc sp2 subl2
          tx.block_index last hlast hlk hqn
        rw [validate_fst] at hv
        simp only [Option.getD_some] at hv
        injection hv with hv
        rw [hv, hp] at hmem
        exact absurd hmem (List.not_mem_nil _)
      simp only [hgate, hq0]
      simp
    · rw [if_neg hp] at hs
      exact absurd hs (invalid_ne_valid _)

theorem parseStage1_locked (ctx : Ctx) (db : DB) (tx : Tx)
    (message : List Nat) (mtid : Nat) (mid : Mid) (a : String)
    (h : parseStage1 ctx db tx message mtid = some mid)
    (hs : mid.status = "valid") (ha : mid.asset = some a)
    (hgate : ctx.enabled "issuance_lock_fix" = true)
    (hex : ∃ rr ∈ validIssuancesOf db a, rr.locked = true) :
    mid.quantity = PyVal.vint 0 := by
  rw [parseStage1.eq_def] at h
  rcases hdec : decodeMessage ctx tx.block_index message mtid with _ | _ |
    ⟨asset_id, qn, dd, ll, rr2, vv, ff, cbb, cdd, cpp, dsc, subl0⟩ <;>
    rw [hdec] at h
  · exact absurd h (by simp)
  · injection h with h
    rw [← h] at hs
    exact absurd hs (by decide)
  · rcases hgen : ctx.generateAssetName asset_id with _ | a0 <;>
      simp only [hgen, String.reduceEq, if_false, ite_false] at h
    · injection h with h
      rw [← h] at hs
      simp at hs
    · rcases subl0 with _ | lname
      · simp only [if_true, ite_true] at h
        exact parseValidStep_locked ctx db tx asset_id qn dd ll rr2 vv ff
          cbb cdd cpp dsc none none a0 mid a h hs ha hgate hex
      · rcases hff : ff with _ | _ <;> rw [hff] at h <;>
          simp only [Bool.false_eq_true, if_false, ite_false, if_true,
            ite_true] at h
        · rcases hvg : ctx.validateSubassetLongnameGroup lname <;>
            rw [hvg] at h <;>
            simp only [Bool.false_eq_true, if_false, ite_false, if_true,
              ite_true, String.reduceEq] at h
          · injection h with h
            rw [← h] at hs
            simp at hs
          · exact parseValidStep_locked ctx db tx asset_id qn dd ll rr2 vv
              false cbb cdd cpp dsc (some a0) (some lname) a0 mid a h hs
              ha hgate hex
        · rcases hvl : ctx.validateSubassetLongname lname <;>
            rw [hvl] at h <;>
            simp only [Bool.false_eq_true, if_false, ite_false, if_true,
              ite_true, String.reduceEq] at h
          · injection h with h
            rw [← h] at hs
            simp at hs
          · exact parseValidStep_locked ctx db tx asset_id qn dd ll rr2 vv
              true cbb cdd cpp dsc
              (some (ctx.parseSubassetFromAssetName lname).1)
              (ctx.parseSubassetFromAssetName lname).2 a0 mid a h hs ha
              hgate hex

/-- Claim C6: with issuance_lock_fix enabled, once some prior valid
issuance of an asset is locked, validate adds the problem "locked asset
and non‐zero quantity" to every candidate issuance of that asset with
positive quantity; with the gate off only the most recent valid
issuance's locked flag is consulted (stated for contexts whose external
assetgroup validator never emits that problem string); and every
issuances row parse persists with status "valid" for an asset having a
prior locked valid issuance carries quantity 0. -/
theorem C6_lock_absorption :
    (∀ (ctx : Ctx) (db : DB) (source : String)
       (destination : Option String) (a : String) (qi : Int)
       (dv ls rs vd fg : Option Bool) (cb : Bool) (cd : Int) (cp : Rat)
       (descr : Option String) (sp sl : Option String) (blk : Int),
       ctx.enabled "issuance_lock_fix" = true →
       (∃ rr ∈ validIssuancesOf db a, rr.locked = true) → 0 < qi →
       ((validate ctx db source destination a (.vint qi) dv ls rs vd fg cb
           (.vint cd) (.vfloat cp) descr sp sl blk).1.map
         (fun vout =>
           decide ("locked asset and non‐zero quantity" ∈
             vout.problems))) = some true) ∧
    (∀ (ctx : Ctx) (db : DB) (source : String)
       (destination : Option String) (a : String) (qi : Int)
       (dv ls rs vd fg : Option Bool) (cb : Bool) (cd : Int) (cp : Rat)
       (descr : Option String) (sp sl : Option String) (blk : Int)
       (last : IssuanceRow),
       (∀ db2 ln s2, "locked asset and non‐zero quantity" ∉
         ctx.assetgroupValidate db2 ln s2) →
       ctx.enabled "issuance_lock_fix" = false →
       (validIssuancesOf db a).getLast? = some last → last.locked = false →
       ((validate ctx db source destination a (.vint qi) dv ls rs vd fg cb
           (.vint cd) (.vfloat cp) descr sp sl blk).1.map
         (fun vout =>
           decide ("locked asset and non‐zero quantity" ∈
             vout.problems))) = some false) ∧
    (∀ (ctx : Ctx) (db : DB) (tx : Tx) (message : List Nat) (mtid : Nat)
       (res : ParseResult) (row : InsRow) (a : String),
       ctx.enabled "issuance_lock_fix" = true →
       parse ctx db tx message mtid = some res →
       Effect.insertIssuanceRow row ∈ res.effects →
       row.status = "valid" → row.asset = some a →
       (∃ rr ∈ validIssuancesOf db a, rr.locked = true) →
       row.quantity = PyVal.vint 0) := by
  refine ⟨?_, ?_, ?_⟩
  · intro ctx db source destination a qi dv ls rs vd fg cb cd cp descr sp
      sl blk hgate hex hq
    rw [validate_fst, Option.map_some']
    refine congrArg some (decide_eq_true ?_)
    have hne : validIssuancesOf db a ≠ [] := by
      rcases hex with ⟨rr, hrr, -⟩
      intro hnil
      rw [hnil] at hrr
      exact absurd hrr (List.not_mem_nil rr)
    obtain ⟨last, hlast⟩ := Option.isSome_iff_exists.mp
      (List.getLast?_isSome.mpr hne)
    have hlk : lockedFlag ctx (validIssuancesOf db a) last = true := by
      rw [lockedFlag, if_pos hgate]
      rcases hex with ⟨rr, hrr, hrl⟩
      exact List.any_eq_true.mpr ⟨rr, hrr, hrl⟩
    exact validateMain_lockMsg_mem ctx db source destination a qi _ _ _ _ _
      cb cd cp _ sp sl blk last hlast hlk hq.ne'
  · intro ctx db source destination a qi dv ls rs vd fg cb cd cp descr sp
      sl blk last hag hgate hlast hlocked
    rw [validate_fst, Option.map_some']
    refine congrArg some (decide_eq_false ?_)
    intro hmem
    rw [validateMain_lockMsg_iff ctx db source destination a qi _ _ _ _ _
      cb cd cp _ sp sl blk (hag db)] at hmem
    obtain ⟨last2, hlast2, hlk2, -⟩ := hmem
    rw [hlast] at hlast2
    injection hlast2 with hlast2
    subst hlast2
    rw [lockedFlag, if_neg (by simp [hgate]), hlocked] at hlk2
    exact absurd hlk2 (by decide)
  · intro ctx db tx message mtid res row a hgate hp hm hs ha hex
    rw [parse] at hp
    obtain ⟨mid, h1, h2⟩ := Option.bind_eq_some.mp hp
    have hrow := effectStage_row ctx db tx mid res row h2 hm
    have hsmid : mid.status = "valid" := hrow.1.symm.trans hs
    have hamid : mid.asset = some a := hrow.2.1.symm.trans ha
    have hq := parseStage1_locked ctx db tx message mtid mid a h1 hsmid
      hamid hgate hex
    rw [hrow.2.2]
    split_ifs with hd
    · rfl
    · exact hq

/-- Witness for claim C6 at the concrete lock scenarios: with the gate on
and a locked prior issuance the lock problem appears for quantity 100;
with the gate off and an unlocked most recent issuance it does not, even
though an older locked one exists; and the persisted valid reissuance row
of the locked asset carries quantity 0. -/
theorem C6_lock_absorption_witness :
    ((validate ctxC6 dbC6 "aSource" none "TESTASSET" (.vint 100)
        (some true) (some true) (some true) (some true) (some true) false
        (.vint 0) (.vfloat 0) (some "") none none 320000).1.map
      (fun vout =>
        decide ("locked asset and non‐zero quantity" ∈
          vout.problems))) = some true ∧
    ((validate plainCtx dbC6b "aSource" none "TESTASSET" (.vint 100)
        (some true) (some true) (some true) (some true) (some true) false
        (.vint 0) (.vfloat 0) (some "") none none 320000).1.map
      (fun vout =>
        decide ("locked asset and non‐zero quantity" ∈
          vout.problems))) = some false ∧
    rowInsC6.quantity = PyVal.vint 0 :=
  ⟨C6_lock_absorption.1 ctxC6 dbC6 "aSource" none "TESTASSET" 100
      (some true) (some true) (some true) (some true) (some true) false
      0 0 (some "") none none 320000 (by decide) (by decide) (by decide),
   C6_lock_absorption.2.1 plainCtx dbC6b "aSource" none "TESTASSET" 100
      (some true) (some true) (some true) (some true) (some true) false
      0 0 (some "") none none 320000 rowC1
      (fun _ _ _ => List.not_mem_nil _) (by decide) (by decide)
      (by decide),
   C6_lock_absorption.2.2 ctxC6 dbC6 txC1 msgC6 20 resC6 rowInsC6
      "TESTASSET" (by decide) (by decide) (by decide) rfl rfl (by decide)⟩

/-- Counterexample to claim C1: in the exact overflow scenario (mainnet
block 320000, integer_overflow_fix on, prior valid total MAX_INT - 10,
message quantity 100) the parser status does not contain the substring
"integer overflow", and the issuances row IS inserted. -/
theorem C1_counterexample :
    (parse ctxC1 dbC1 txC1 msgC1 20).map (fun r =>
      pyIn "integer overflow" r.status) = some false ∧
    (parse ctxC1 dbC1 txC1 msgC1 20).map (fun r =>
      r.effects.any Effect.isInsertIssuance) = some true :=
  ⟨by decide, by decide⟩

/-- Claim C1 amended: in the overflow scenario the parser status is
exactly "invalid: total quantity overflow"; the issuances row is
persisted with that invalid status and the attempted quantity 100; and no
balance mutation (debit, credit) nor assets-table insert happens. -/
theorem C1_overflow_scenario :
    (parse ctxC1 dbC1 txC1 msgC1 20).map (fun r => r.status) =
      some "invalid: total quantity overflow" ∧
    (parse ctxC1 dbC1 txC1 msgC1 20).map (fun r =>
      r.effects.any (fun e =>
        match e with
        | Effect.insertIssuanceRow rr =>
            decide (rr.status = "invalid: total quantity overflow" ∧
              rr.quantity = PyVal.vint 100)
        | _ => false)) = some true ∧
    (parse ctxC1 dbC1 txC1 msgC1 20).map (fun r =>
      r.effects.any (fun e =>
        e.isDebit || e.isCredit || e.isInsertAsset)) = some false :=
  ⟨by decide, by decide, by decide⟩

end Issuance

